import Mathlib

/-
A shallow embedding of the zheap tuple-visibility core
(src/backend/utils/time/ztqual.c).

The engine data (tuples, undo records, the per-page transaction-slot
table) are explicit structures.  The external collaborators that the
source consumes as interfaces only (the undo reader UndoFetchRecord,
the transaction oracle, ZHeapTupleGetCid / ZHeapTupleGetCtid, the page
slot table) are fields of an environment record `Env`; they are not
part of this repository's sources, so they are modelled from the spec,
as noted on each field.

Every loop of the C file is fuel-indexed; a result of `Res.fuelOut`
means the fuel ran out (it never occurs on well-founded undo chains,
which the termination theorem proves).  `Res.crash` marks a path on
which the C code dereferences a NULL undo-record pointer.  Every
function also returns the list of undo-record pointers it passed to
UndoFetchRecord, in call order, so that fetch-count and fetch-target
properties can be stated.  Debug assertions (Assert) are modelled as
no-ops, i.e. the NDEBUG build is embedded.
-/

namespace ZTq

/-- The distinguished invalid transaction id (InvalidTransactionId). -/
def InvalidTransactionId : Nat := 0

/-- The distinguished invalid command id (InvalidCommandId). -/
def InvalidCommandId : Nat := 4294967295

/-- The distinguished invalid undo record pointer (InvalidUndoRecPtr). -/
def InvalidUndoRecPtr : Nat := 0

/-- Modelled from the spec: TransactionIdPrecedes is the engine's
wraparound-safe total order on xids (transaction manager, not under
src/).  On the unbounded Nat model it is plain comparison; the invalid
xid 0 precedes every live xid, as in the engine's special-xid rule. -/
def TransactionIdPrecedes (a b : Nat) : Bool := decide (a < b)

/-- Undo record types appearing in ztqual.c (UNDO_INVALID_XACT_SLOT and
UNDO_UPDATE are tested explicitly; the others are carried for realism). -/
inductive UndoRecType where
  | invalidXactSlot
  | update
  | inplaceUpdate
  | xidLockOnly
  | insertUndo
  | deleteUndo
deriving DecidableEq

/-- The tuple infomask bits tested by ztqual.c, one Bool per flag. -/
structure Infomask where
  deleted : Bool
  updated : Bool
  inplaceUpdated : Bool
  xidLockOnly : Bool
  invalidXactSlot : Bool
deriving DecidableEq

/-- A tuple's transaction-slot reference: the distinguished frozen slot
(ZHTUP_SLOT_FROZEN) or an index into the page's slot table. -/
inductive XactSlot where
  | frozen
  | idx : Nat → XactSlot
deriving DecidableEq

/-- A zheap tuple: self pointer (block, offset), infomask, slot. -/
structure ZTuple where
  self : Nat × Nat
  infomask : Infomask
  slot : XactSlot
deriving DecidableEq

/-- An unpacked undo record.  `uur_tuple` is the prior tuple image the
record reconstructs (the payload consumed by CopyTupleFromUndoRecord);
`uur_payload_ctid` is the moved-to pointer carried by UNDO_UPDATE. -/
structure UndoRecord where
  uur_type : UndoRecType
  uur_prevxid : Nat
  uur_cid : Nat
  uur_blkprev : Nat
  uur_payload_ctid : Nat × Nat
  uur_tuple : ZTuple
deriving DecidableEq

/-- A snapshot: current command id plus the two output slots and the
speculative token that ZHeapTupleSatisfiesDirty writes. -/
structure Snapshot where
  curcid : Nat
  xmin : Nat
  xmax : Nat
  speculativeToken : Nat
deriving DecidableEq

/-- The external collaborators of the visibility core, modelled from the
spec (none of them is under src/):
`fetch` is UndoFetchRecord(ptr, blk, off, expected_prev_xid), returning
none when the record has been discarded; `transinfo` is the page
special-area slot table, slot index to (xid, latest undo pointer);
`isCurrent`, `isInProgress`, `didCommit` are the transaction oracle;
`xidInSnapshot` is XidInMVCCSnapshot; `getCid` is ZHeapTupleGetCid;
`getCtid` is ZHeapTupleGetCtid, yielding the moved-to pointer taken
from the most recent undo UPDATE record of the tuple. -/
structure Env where
  fetch : Nat → Nat → Nat → Nat → Option UndoRecord
  transinfo : Nat → Nat × Nat
  recentGlobalXmin : Nat
  isCurrent : Nat → Bool
  isInProgress : Nat → Bool
  didCommit : Nat → Bool
  xidInSnapshot : Nat → Snapshot → Bool
  getCid : ZTuple → Nat
  getCtid : ZTuple → Nat × Nat

/-- Index of a slot (the frozen sentinel is never dereferenced by the
embedded code on the paths where the C code does not dereference it). -/
def slotIndex : XactSlot → Nat
  | XactSlot.frozen => 0
  | XactSlot.idx i => i

/-- ZHeapTupleHeaderGetXactSlot. -/
def ZHeapTupleHeaderGetXactSlot (t : ZTuple) : XactSlot := t.slot

/-- Modelled from the spec: ZHeapTupleHeaderGetRawXid reads the xid of
the tuple's slot from the page special area. -/
def ZHeapTupleHeaderGetRawXid (env : Env) (t : ZTuple) : Nat :=
  (env.transinfo (slotIndex t.slot)).1

/-- Modelled from the spec: ZHeapTupleHeaderGetRawUndoPtr reads the
latest undo pointer of the tuple's slot from the page special area. -/
def ZHeapTupleHeaderGetRawUndoPtr (env : Env) (t : ZTuple) : Nat :=
  (env.transinfo (slotIndex t.slot)).2

/-- Modelled from the spec: the ZHEAP_XID_IS_LOCKED_ONLY infomask test
(the macro is not under src/); the tuple's last operation was only a
lock. -/
def ZHeapXidIsLockedOnly (m : Infomask) : Bool := m.xidLockOnly

/-- Modelled from the spec: CopyTupleFromUndoRecord applies an undo
record to reconstruct the prior tuple image; the record carries that
image, and the self pointer is stable across versions. -/
def CopyTupleFromUndoRecord (urec : UndoRecord) (zhtup : ZTuple) : ZTuple :=
  { urec.uur_tuple with self := zhtup.self }

/-- Outcome of an embedded computation: a value, a NULL-pointer
dereference in the C code, or fuel exhaustion of the embedding. -/
inductive Res (α : Type) where
  | ok : α → Res α
  | crash : Res α
  | fuelOut : Res α
deriving DecidableEq

/-- Operation class of a materialized undo tuple (the undo_oper local
of GetTupleFromUndo / UndoTupleSatisfiesUpdate). -/
inductive UndoOper where
  | inplaceUpdated
  | lockOnly
  | other
deriving DecidableEq

/-- The fetch_undo_record goto loop of GetTupleFromUndo and
UndoTupleSatisfiesUpdate (ztqual.c lines 63 to 80 and 273 to 290): fetch
at ptr, and while the record's type is UNDO_INVALID_XACT_SLOT follow
uur_blkprev and refetch.  The C code dereferences the fetched record
without a NULL check, so a discarded record is a crash here.  Returns
the fetch site together with the record, plus the fetched pointers. -/
def fetchSkipInvalid (env : Env) :
    Nat → Nat → Nat → Nat → Nat → Res (Nat × UndoRecord) × List Nat
  | 0, _, _, _, _ => (Res.fuelOut, [])
  | f+1, ptr, blk, off, prevXid =>
    match env.fetch ptr blk off prevXid with
    | none => (Res.crash, [ptr])
    | some urec =>
      if urec.uur_type = UndoRecType.invalidXactSlot then
        let rest := fetchSkipInvalid env f urec.uur_blkprev blk off prevXid
        (rest.1, ptr :: rest.2)
      else (Res.ok (ptr, urec), [ptr])

/-- The inner identity-resolution do-while loop of GetTupleFromUndo and
UndoTupleSatisfiesUpdate (ztqual.c lines 127 to 162 and 350 to 385),
entered when the materialized undo tuple carries ZHEAP_INVALID_XACT_SLOT.
Fetches along prev_urec_ptr with InvalidTransactionId as the expected
previous xid; exits with the invalid identity when the record is
discarded or its uur_prevxid precedes RecentGlobalXmin, and otherwise
captures (uur_prevxid, uur_cid, uur_blkprev) and loops until
uur_type = UNDO_INVALID_XACT_SLOT and the captured starting xid equals
the running xid.  Returns (xid, cid, prev_urec_ptr) plus the trace. -/
def innerIdentityLoop (env : Env) :
    Nat → Nat → Nat → Nat → Nat → Option (Nat × Nat × Nat) × List Nat
  | 0, _, _, _, _ => (none, [])
  | f+1, ptr, blk, off, capturedXid =>
    match env.fetch ptr blk off InvalidTransactionId with
    | none => (some (InvalidTransactionId, InvalidCommandId, ptr), [ptr])
    | some urec =>
      if TransactionIdPrecedes urec.uur_prevxid env.recentGlobalXmin then
        (some (InvalidTransactionId, InvalidCommandId, ptr), [ptr])
      else
        if urec.uur_type = UndoRecType.invalidXactSlot ∧
           capturedXid = urec.uur_prevxid then
          (some (urec.uur_prevxid, urec.uur_cid, urec.uur_blkprev), [ptr])
        else
          let rest := innerIdentityLoop env f urec.uur_blkprev blk off capturedXid
          (rest.1, ptr :: rest.2)

/-- What a chain step decides once the operative identity is known:
return a value, or dig one step deeper into the chain. -/
inductive WalkStep (α : Type) where
  | ret : α → WalkStep α
  | recurse : WalkStep α
deriving DecidableEq

/-- The decision table of GetTupleFromUndo (ztqual.c lines 186 to 235),
keyed on the operation class of the materialized undo tuple and the
transaction oracle's view of the operative xid; `recurse` stands for
the three identical recursive calls of the C code. -/
def mvccUndoDecision (env : Env) (snapshot : Snapshot) (undoTup : ZTuple)
    (undoOper : UndoOper) (xid cid : Nat) : WalkStep (Option ZTuple) :=
  if undoOper = UndoOper.inplaceUpdated ∨ undoOper = UndoOper.lockOnly then
    if env.isCurrent xid then
      if undoOper = UndoOper.lockOnly then WalkStep.ret (some undoTup)
      else if snapshot.curcid ≤ cid then WalkStep.recurse
      else WalkStep.ret (some undoTup)
    else if env.xidInSnapshot xid snapshot then WalkStep.recurse
    else if env.didCommit xid then WalkStep.ret (some undoTup)
    else WalkStep.recurse
  else
    if env.isCurrent xid then
      if snapshot.curcid ≤ cid then WalkStep.ret none
      else WalkStep.ret (some undoTup)
    else if env.xidInSnapshot xid snapshot then WalkStep.ret none
    else if env.didCommit xid then WalkStep.ret (some undoTup)
    else WalkStep.ret none

/-- The decision table of UndoTupleSatisfiesUpdate (ztqual.c lines 412
to 473); `ret b` stands for setting result to b and jumping to
result_available, `recurse` for the three identical recursive calls. -/
def updateUndoDecision (env : Env) (curcid : Nat) (undoOper : UndoOper)
    (xid cid : Nat) : WalkStep Bool :=
  if undoOper = UndoOper.inplaceUpdated ∨ undoOper = UndoOper.lockOnly then
    if env.isCurrent xid then
      if undoOper = UndoOper.lockOnly then WalkStep.ret true
      else if curcid ≤ cid then WalkStep.recurse
      else WalkStep.ret true
    else if env.isInProgress xid then WalkStep.recurse
    else if env.didCommit xid then WalkStep.ret true
    else WalkStep.recurse
  else
    if env.isCurrent xid then
      if curcid ≤ cid then WalkStep.ret false
      else WalkStep.ret true
    else if env.isInProgress xid then WalkStep.ret false
    else if env.didCommit xid then WalkStep.ret true
    else WalkStep.ret false

/-- GetTupleFromUndo (ztqual.c lines 43 to 236).  One fuel unit per
recursive chain step; the goto loop and the inner loop carry their own
iterations out of the same fuel value.  The three textual recursion
sites of the C code pass identical arguments, so the decision table is
folded into a single recursion site. -/
def GetTupleFromUndo (env : Env) :
    Nat → Nat → ZTuple → Snapshot → Nat → Res (Option ZTuple) × List Nat
  | 0, _, _, _, _ => (Res.fuelOut, [])
  | f+1, urecPtr, zhtup, snapshot, prevUndoXid =>
    let blk := zhtup.self.1
    let off := zhtup.self.2
    let prevTransSlotId := ZHeapTupleHeaderGetXactSlot zhtup
    match fetchSkipInvalid env (f+1) urecPtr blk off prevUndoXid with
    | (Res.crash, tr0) => (Res.crash, tr0)
    | (Res.fuelOut, tr0) => (Res.fuelOut, tr0)
    | (Res.ok (_, urec), tr0) =>
      let undoTup := CopyTupleFromUndoRecord urec zhtup
      let transSlotId := ZHeapTupleHeaderGetXactSlot undoTup
      let xid0 := urec.uur_prevxid
      let undoOper : UndoOper :=
        if undoTup.infomask.inplaceUpdated then UndoOper.inplaceUpdated
        else if undoTup.infomask.xidLockOnly then UndoOper.lockOnly
        else UndoOper.other
      let prevUrecPtr1 :=
        if transSlotId ≠ XactSlot.frozen ∧ transSlotId ≠ prevTransSlotId then
          ZHeapTupleHeaderGetRawUndoPtr env undoTup
        else urec.uur_blkprev
      let step2 : Option (Nat × Nat × Nat) × List Nat :=
        if transSlotId ≠ XactSlot.frozen ∧
           TransactionIdPrecedes xid0 env.recentGlobalXmin = false then
          if undoTup.infomask.invalidXactSlot then
            innerIdentityLoop env (f+1) prevUrecPtr1 blk off xid0
          else (some (xid0, env.getCid undoTup, prevUrecPtr1), [])
        else (some (xid0, InvalidCommandId, prevUrecPtr1), [])
      let tr1 := step2.2
      let last : Res (Option ZTuple) × List Nat :=
        match step2.1 with
        | none => (Res.fuelOut, [])
        | some (xid, cid, prevUrecPtr2) =>
          if transSlotId = XactSlot.frozen ∨
             TransactionIdPrecedes xid env.recentGlobalXmin = true then
            (Res.ok (some undoTup), [])
          else
            match mvccUndoDecision env snapshot undoTup undoOper xid cid with
            | WalkStep.ret v => (Res.ok v, [])
            | WalkStep.recurse =>
              GetTupleFromUndo env f prevUrecPtr2 undoTup snapshot xid
      (last.1, tr0 ++ tr1 ++ last.2)

/-- Outputs of UndoTupleSatisfiesUpdate: the visibility verdict, the
final value written through the ctid out parameter (none when no ctid
pointer was supplied), and the in_place_updated_or_locked flag. -/
structure UndoUpdateOut where
  visible : Bool
  ctidOut : Option (Nat × Nat)
  inPlaceUpdatedOrLocked : Bool
deriving DecidableEq

/-- UndoTupleSatisfiesUpdate (ztqual.c lines 250 to 479).  `wantCtid`
models a non-NULL ctid out pointer; `iplIn` is the value already held by
the in_place_updated_or_locked out parameter (the C code only ever sets
it to true).  As in GetTupleFromUndo the three identical recursion
sites are folded into one. -/
def UndoTupleSatisfiesUpdate (env : Env) :
    Nat → Nat → ZTuple → Nat → Bool → Nat → Bool → Res UndoUpdateOut × List Nat
  | 0, _, _, _, _, _, _ => (Res.fuelOut, [])
  | f+1, urecPtr, zhtup, curcid, wantCtid, prevUndoXid, iplIn =>
    let blk := zhtup.self.1
    let off := zhtup.self.2
    let prevTransSlotId := ZHeapTupleHeaderGetXactSlot zhtup
    match fetchSkipInvalid env (f+1) urecPtr blk off prevUndoXid with
    | (Res.crash, tr0) => (Res.crash, tr0)
    | (Res.fuelOut, tr0) => (Res.fuelOut, tr0)
    | (Res.ok (_, urec), tr0) =>
      let undoTup := CopyTupleFromUndoRecord urec zhtup
      let transSlotId := ZHeapTupleHeaderGetXactSlot undoTup
      let xid0 := urec.uur_prevxid
      let ctidHere : Option (Nat × Nat) :=
        if wantCtid then
          some (if urec.uur_type = UndoRecType.update then urec.uur_payload_ctid
                else undoTup.self)
        else none
      let undoOper : UndoOper :=
        if undoTup.infomask.inplaceUpdated then UndoOper.inplaceUpdated
        else if undoTup.infomask.xidLockOnly then UndoOper.lockOnly
        else UndoOper.other
      let ipl1 := iplIn || undoTup.infomask.inplaceUpdated || undoTup.infomask.xidLockOnly
      let prevUrecPtr1 :=
        if transSlotId ≠ XactSlot.frozen ∧ transSlotId ≠ prevTransSlotId then
          ZHeapTupleHeaderGetRawUndoPtr env undoTup
        else urec.uur_blkprev
      let step2 : Option (Nat × Nat × Nat) × List Nat :=
        if transSlotId ≠ XactSlot.frozen ∧
           TransactionIdPrecedes xid0 env.recentGlobalXmin = false then
          if undoTup.infomask.invalidXactSlot then
            innerIdentityLoop env (f+1) prevUrecPtr1 blk off xid0
          else (some (xid0, env.getCid undoTup, prevUrecPtr1), [])
        else (some (xid0, InvalidCommandId, prevUrecPtr1), [])
      let tr1 := step2.2
      let last : Res UndoUpdateOut × List Nat :=
        match step2.1 with
        | none => (Res.fuelOut, [])
        | some (xid, cid, prevUrecPtr2) =>
          if transSlotId = XactSlot.frozen ∨
             TransactionIdPrecedes xid env.recentGlobalXmin = true then
            (Res.ok { visible := true, ctidOut := ctidHere,
                      inPlaceUpdatedOrLocked := ipl1 }, [])
          else
            match updateUndoDecision env curcid undoOper xid cid with
            | WalkStep.ret b =>
              (Res.ok { visible := b, ctidOut := ctidHere,
                        inPlaceUpdatedOrLocked := ipl1 }, [])
            | WalkStep.recurse =>
              UndoTupleSatisfiesUpdate env f prevUrecPtr2 undoTup curcid wantCtid xid ipl1
      (last.1, tr0 ++ tr1 ++ last.2)

/-- The top-level identity-resolution do-while loop shared (textually
duplicated) by ZHeapTupleSatisfiesMVCC, ZHeapTupleSatisfiesUpdate,
ZHeapTupleIsSurelyDead, ZHeapTupleSatisfiesDirty and
ZHeapTupleSatisfiesOldestXmin (e.g. ztqual.c lines 539 to 570): fetch
along the chain with InvalidTransactionId as expected previous xid,
capturing (uur_prevxid, uur_cid, uur_blkprev) per record, until a
record of type UNDO_INVALID_XACT_SLOT is consumed; a discarded record
yields the invalid identity with the pointer left at the failed fetch
site.  Callers whose C code does not capture the cid (Dirty,
SurelyDead, OldestXmin) simply ignore that component. -/
def resolveTopLoop (env : Env) :
    Nat → Nat → Nat → Nat → Option (Nat × Nat × Nat) × List Nat
  | 0, _, _, _ => (none, [])
  | f+1, ptr, blk, off =>
    match env.fetch ptr blk off InvalidTransactionId with
    | none => (some (InvalidTransactionId, InvalidCommandId, ptr), [ptr])
    | some urec =>
      if urec.uur_type = UndoRecType.invalidXactSlot then
        (some (urec.uur_prevxid, urec.uur_cid, urec.uur_blkprev), [ptr])
      else
        let rest := resolveTopLoop env f urec.uur_blkprev blk off
        (rest.1, ptr :: rest.2)

/-- Starting identity resolution of the public predicates (e.g. ztqual.c
lines 531 to 580): frozen slot gives the invalid xid; a tuple carrying
ZHEAP_INVALID_XACT_SLOT walks the invalid-slot records from the slot's
undo pointer via `resolveTopLoop`; otherwise the identity is read
directly from the slot table (with the cid from ZHeapTupleGetCid).
Returns (xid, cid, urec_ptr) and the fetched pointers; none means the
fuel ran out inside the loop. -/
def resolveIdentTop (env : Env) (fuel : Nat) (tup : ZTuple) :
    Option (Nat × Nat × Nat) × List Nat :=
  match tup.slot with
  | XactSlot.frozen =>
    (some (InvalidTransactionId, InvalidCommandId, InvalidUndoRecPtr), [])
  | XactSlot.idx _ =>
    if tup.infomask.invalidXactSlot then
      resolveTopLoop env fuel (ZHeapTupleHeaderGetRawUndoPtr env tup)
        tup.self.1 tup.self.2
    else
      (some (ZHeapTupleHeaderGetRawXid env tup, env.getCid tup,
             ZHeapTupleHeaderGetRawUndoPtr env tup), [])

/-- The all-visible shortcut condition used by every public predicate:
the tuple's slot is frozen, or the resolved xid precedes
RecentGlobalXmin. -/
def allVisibleShortcut (env : Env) (tup : ZTuple) (xid : Nat) : Bool :=
  decide (ZHeapTupleHeaderGetXactSlot tup = XactSlot.frozen) ||
  TransactionIdPrecedes xid env.recentGlobalXmin

/-- ZHeapTupleSatisfiesMVCC (ztqual.c lines 510 to 691).  The ctid
parameter of the C function is never used there and is omitted. -/
def ZHeapTupleSatisfiesMVCC (env : Env) (fuel : Nat) (zhtup : ZTuple)
    (snapshot : Snapshot) : Res (Option ZTuple) × List Nat :=
  match resolveIdentTop env fuel zhtup with
  | (none, tr) => (Res.fuelOut, tr)
  | (some (xid, cid, urecPtr), tr) =>
    if zhtup.infomask.deleted || zhtup.infomask.updated then
      if allVisibleShortcut env zhtup xid then (Res.ok none, tr)
      else if env.isCurrent xid then
        if snapshot.curcid ≤ cid then
          let rest := GetTupleFromUndo env fuel urecPtr zhtup snapshot InvalidTransactionId
          (rest.1, tr ++ rest.2)
        else (Res.ok none, tr)
      else if env.xidInSnapshot xid snapshot then
        let rest := GetTupleFromUndo env fuel urecPtr zhtup snapshot InvalidTransactionId
        (rest.1, tr ++ rest.2)
      else if env.didCommit xid then (Res.ok none, tr)
      else
        let rest := GetTupleFromUndo env fuel urecPtr zhtup snapshot InvalidTransactionId
        (rest.1, tr ++ rest.2)
    else if zhtup.infomask.inplaceUpdated || zhtup.infomask.xidLockOnly then
      if allVisibleShortcut env zhtup xid then (Res.ok (some zhtup), tr)
      else if env.isCurrent xid then
        if ZHeapXidIsLockedOnly zhtup.infomask then (Res.ok (some zhtup), tr)
        else if snapshot.curcid ≤ cid then
          let rest := GetTupleFromUndo env fuel urecPtr zhtup snapshot InvalidTransactionId
          (rest.1, tr ++ rest.2)
        else (Res.ok (some zhtup), tr)
      else if env.xidInSnapshot xid snapshot then
        let rest := GetTupleFromUndo env fuel urecPtr zhtup snapshot InvalidTransactionId
        (rest.1, tr ++ rest.2)
      else if env.didCommit xid then (Res.ok (some zhtup), tr)
      else
        let rest := GetTupleFromUndo env fuel urecPtr zhtup snapshot InvalidTransactionId
        (rest.1, tr ++ rest.2)
    else
      if allVisibleShortcut env zhtup xid then (Res.ok (some zhtup), tr)
      else if env.isCurrent xid then
        if snapshot.curcid ≤ cid then (Res.ok none, tr)
        else (Res.ok (some zhtup), tr)
      else if env.xidInSnapshot xid snapshot then (Res.ok none, tr)
      else if env.didCommit xid then (Res.ok (some zhtup), tr)
      else (Res.ok none, tr)

/-- The HTSU_Result verdicts returned by ZHeapTupleSatisfiesUpdate. -/
inductive HTSUResult where
  | mayBeUpdated
  | invisible
  | selfUpdated
  | updated
  | beingUpdated
deriving DecidableEq

/-- Outputs of ZHeapTupleSatisfiesUpdate: the verdict and the values
written through the xid, cid, ctid and in_place_updated_or_locked out
parameters.  `cidOut` is none on the frozen path, where the C code
leaves the caller's cid variable unwritten. -/
structure UpdateOut where
  result : HTSUResult
  xidOut : Nat
  cidOut : Option Nat
  ctidOut : Option (Nat × Nat)
  inPlaceUpdatedOrLocked : Bool
deriving DecidableEq

/-- Lift a walker outcome into an UpdateOut, mapping visibility to the
given verdicts (the `visible ? a : b` pattern of ztqual.c). -/
def liftUpdateWalk (xid : Nat) (cidOut : Option Nat)
    (onVisible onInvisible : HTSUResult)
    (w : Res UndoUpdateOut) : Res UpdateOut :=
  match w with
  | Res.ok u =>
    Res.ok { result := if u.visible then onVisible else onInvisible,
             xidOut := xid, cidOut := cidOut, ctidOut := u.ctidOut,
             inPlaceUpdatedOrLocked := u.inPlaceUpdatedOrLocked }
  | Res.crash => Res.crash
  | Res.fuelOut => Res.fuelOut

/-- ZHeapTupleSatisfiesUpdate (ztqual.c lines 709 to 976).  `wantCtid`
models a non-NULL ctid out pointer. -/
def ZHeapTupleSatisfiesUpdate (env : Env) (fuel : Nat) (zhtup : ZTuple)
    (curcid : Nat) (wantCtid : Bool) (lockAllowed : Bool)
    (snapshot : Snapshot) : Res UpdateOut × List Nat :=
  match resolveIdentTop env fuel zhtup with
  | (none, tr) => (Res.fuelOut, tr)
  | (some (xid, cid, urecPtr), tr) =>
    let cidOut : Option Nat :=
      if zhtup.slot = XactSlot.frozen then none else some cid
    let direct : HTSUResult → Option (Nat × Nat) → Bool → Res UpdateOut × List Nat :=
      fun r c ipl =>
        (Res.ok { result := r, xidOut := xid, cidOut := cidOut, ctidOut := c,
                  inPlaceUpdatedOrLocked := ipl }, tr)
    if zhtup.infomask.deleted || zhtup.infomask.updated then
      if env.isCurrent xid then
        if curcid ≤ cid then
          let w := UndoTupleSatisfiesUpdate env fuel urecPtr zhtup curcid wantCtid
                     InvalidTransactionId false
          (liftUpdateWalk xid cidOut HTSUResult.selfUpdated HTSUResult.invisible w.1,
           tr ++ w.2)
        else direct HTSUResult.invisible none false
      else if env.isInProgress xid then
        let w := UndoTupleSatisfiesUpdate env fuel urecPtr zhtup curcid wantCtid
                   InvalidTransactionId false
        (liftUpdateWalk xid cidOut HTSUResult.beingUpdated HTSUResult.invisible w.1,
         tr ++ w.2)
      else if env.didCommit xid then
        direct HTSUResult.updated
          (if zhtup.infomask.updated && wantCtid then some (env.getCtid zhtup) else none)
          false
      else
        let w := UndoTupleSatisfiesUpdate env fuel
                   (ZHeapTupleHeaderGetRawUndoPtr env zhtup) zhtup curcid wantCtid
                   InvalidTransactionId false
        (liftUpdateWalk xid cidOut HTSUResult.mayBeUpdated HTSUResult.invisible w.1,
         tr ++ w.2)
    else if zhtup.infomask.inplaceUpdated || zhtup.infomask.xidLockOnly then
      if allVisibleShortcut env zhtup xid then
        direct HTSUResult.mayBeUpdated none true
      else if env.isCurrent xid then
        if ZHeapXidIsLockedOnly zhtup.infomask then
          direct HTSUResult.beingUpdated none true
        else if curcid ≤ cid then
          let w := UndoTupleSatisfiesUpdate env fuel urecPtr zhtup curcid wantCtid
                     InvalidTransactionId true
          (liftUpdateWalk xid cidOut HTSUResult.selfUpdated HTSUResult.invisible w.1,
           tr ++ w.2)
        else direct HTSUResult.mayBeUpdated none true
      else if env.isInProgress xid then
        let w := UndoTupleSatisfiesUpdate env fuel urecPtr zhtup curcid wantCtid
                   InvalidTransactionId true
        (liftUpdateWalk xid cidOut HTSUResult.beingUpdated HTSUResult.invisible w.1,
         tr ++ w.2)
      else if env.didCommit xid then
        if lockAllowed || !(env.xidInSnapshot xid snapshot) then
          direct HTSUResult.mayBeUpdated none true
        else direct HTSUResult.updated none true
      else
        let w := UndoTupleSatisfiesUpdate env fuel urecPtr zhtup curcid wantCtid
                   InvalidTransactionId true
        (liftUpdateWalk xid cidOut HTSUResult.mayBeUpdated HTSUResult.invisible w.1,
         tr ++ w.2)
    else
      if allVisibleShortcut env zhtup xid then
        direct HTSUResult.mayBeUpdated none false
      else if env.isCurrent xid then
        if curcid ≤ cid then direct HTSUResult.invisible none false
        else direct HTSUResult.mayBeUpdated none false
      else if env.isInProgress xid then direct HTSUResult.invisible none false
      else if env.didCommit xid then direct HTSUResult.mayBeUpdated none false
      else direct HTSUResult.invisible none false

/-- ZHeapTupleIsSurelyDead (ztqual.c lines 983 to 1063): the tuple is
surely dead iff its infomask has ZHEAP_DELETED or ZHEAP_UPDATED and the
all-visible shortcut fires on the resolved xid.  The OldestXmin
parameter is carried but, as in the C code, never read. -/
def ZHeapTupleIsSurelyDead (env : Env) (fuel : Nat) (zhtup : ZTuple)
    (OldestXmin : Nat) : Option Bool × List Nat :=
  match resolveIdentTop env fuel zhtup with
  | (none, tr) => (none, tr)
  | (some (xid, _, _), tr) =>
    if zhtup.infomask.deleted || zhtup.infomask.updated then
      (some (allVisibleShortcut env zhtup xid), tr)
    else (some false, tr)

/-- The snapshot as ZHeapTupleSatisfiesDirty rewrites it on entry
(ztqual.c lines 1097 to 1098): xmin and xmax invalid, token zero. -/
def entrySnapshot (s : Snapshot) : Snapshot :=
  { s with xmin := InvalidTransactionId, xmax := InvalidTransactionId,
           speculativeToken := 0 }

/-- Outputs of ZHeapTupleSatisfiesDirty: the returned tuple (or none),
the snapshot as left by the call, and the value written through the
ctid out parameter. -/
structure DirtyOut where
  result : Option ZTuple
  snapOut : Snapshot
  ctidOut : Option (Nat × Nat)
deriving DecidableEq

/-- ZHeapTupleSatisfiesDirty (ztqual.c lines 1082 to 1263).  The
aborted branches end in Assert(false) and return NULL; the NDEBUG
behavior (return NULL) is embedded. -/
def ZHeapTupleSatisfiesDirty (env : Env) (fuel : Nat) (zhtup : ZTuple)
    (snapshot : Snapshot) (wantCtid : Bool) : Res DirtyOut × List Nat :=
  let s0 := entrySnapshot snapshot
  match resolveIdentTop env fuel zhtup with
  | (none, tr) => (Res.fuelOut, tr)
  | (some (xid, _, _), tr) =>
    if zhtup.infomask.deleted || zhtup.infomask.updated then
      if env.isCurrent xid then
        (Res.ok { result := none, snapOut := s0,
                  ctidOut := if zhtup.infomask.updated && wantCtid
                             then some (env.getCtid zhtup) else none }, tr)
      else if env.isInProgress xid then
        (Res.ok { result := some zhtup, snapOut := { s0 with xmax := xid },
                  ctidOut := none }, tr)
      else if env.didCommit xid then
        (Res.ok { result := none, snapOut := s0,
                  ctidOut := if zhtup.infomask.updated && wantCtid
                             then some (env.getCtid zhtup) else none }, tr)
      else
        (Res.ok { result := none, snapOut := s0, ctidOut := none }, tr)
    else if zhtup.infomask.inplaceUpdated || zhtup.infomask.xidLockOnly then
      if allVisibleShortcut env zhtup xid then
        (Res.ok { result := some zhtup, snapOut := s0, ctidOut := none }, tr)
      else if env.isCurrent xid then
        (Res.ok { result := some zhtup, snapOut := s0, ctidOut := none }, tr)
      else if env.isInProgress xid then
        (Res.ok { result := some zhtup,
                  snapOut := if ZHeapXidIsLockedOnly zhtup.infomask then s0
                             else { s0 with xmax := xid },
                  ctidOut := none }, tr)
      else if env.didCommit xid then
        (Res.ok { result := some zhtup, snapOut := s0, ctidOut := none }, tr)
      else
        (Res.ok { result := none, snapOut := s0, ctidOut := none }, tr)
    else
      if allVisibleShortcut env zhtup xid then
        (Res.ok { result := some zhtup, snapOut := s0, ctidOut := none }, tr)
      else if env.isCurrent xid then
        (Res.ok { result := some zhtup, snapOut := s0, ctidOut := none }, tr)
      else if env.isInProgress xid then
        (Res.ok { result := some zhtup, snapOut := { s0 with xmin := xid },
                  ctidOut := none }, tr)
      else if env.didCommit xid then
        (Res.ok { result := some zhtup, snapOut := s0, ctidOut := none }, tr)
      else
        (Res.ok { result := none, snapOut := s0, ctidOut := none }, tr)

/-- ZHeapTupleSatisfiesAny (ztqual.c lines 1269 to 1274): any tuple
satisfies SnapshotAny. -/
def ZHeapTupleSatisfiesAny (zhtup : ZTuple) (snapshot : Snapshot) : ZTuple :=
  zhtup

/-- Spec-side description (following the claim's words) of one advance
of the inner identity loop: the blkprev of the record fetched at p, or
p itself when the fetch yields nothing. -/
def innerLoopSpecStep (env : Env) (blk off p : Nat) : Nat :=
  match env.fetch p blk off InvalidTransactionId with
  | none => p
  | some r => r.uur_blkprev

/-- Spec-side description of the pointer the inner identity loop fetches
at its k-th iteration, starting from p0. -/
def innerLoopSpecPtr (env : Env) (blk off p0 : Nat) : Nat → Nat
  | 0 => p0
  | k+1 => innerLoopSpecStep env blk off (innerLoopSpecPtr env blk off p0 k)

/-- Spec-side description (following the claim's words) of the inner
loop's exit condition at fetch site p: the record is discarded, or its
prev_xid precedes the horizon, or it is an UNDO_INVALID_XACT_SLOT
record whose prev_xid equals the captured starting xid. -/
def innerLoopSpecExit (env : Env) (blk off capturedXid p : Nat) : Bool :=
  match env.fetch p blk off InvalidTransactionId with
  | none => true
  | some r =>
    TransactionIdPrecedes r.uur_prevxid env.recentGlobalXmin ||
    (decide (r.uur_type = UndoRecType.invalidXactSlot) &&
     decide (capturedXid = r.uur_prevxid))

/-- Spec-side description of the operative identity the inner loop
produces when it exits at fetch site p: the invalid identity on the
discarded or past-horizon exits, the record's (prev_xid, cid, blkprev)
otherwise. -/
def innerLoopSpecVal (env : Env) (blk off p : Nat) : Nat × Nat × Nat :=
  match env.fetch p blk off InvalidTransactionId with
  | none => (InvalidTransactionId, InvalidCommandId, p)
  | some r =>
    if TransactionIdPrecedes r.uur_prevxid env.recentGlobalXmin then
      (InvalidTransactionId, InvalidCommandId, p)
    else (r.uur_prevxid, r.uur_cid, r.uur_blkprev)

/-- Spec-side condition (following claim C9's words) under which
ZHeapTupleSatisfiesDirty writes snapshot.xmax: an in-progress
transaction, other than the current one, deleted, non-in-place-updated,
or in-place-updated (not lock-only) the tuple, and for the updated or
locked class the all-visible shortcut did not fire. -/
def dirtyWritesXmax (env : Env) (tup : ZTuple) (xid : Nat) : Bool :=
  if tup.infomask.deleted || tup.infomask.updated then
    !env.isCurrent xid && env.isInProgress xid
  else if tup.infomask.inplaceUpdated || tup.infomask.xidLockOnly then
    !allVisibleShortcut env tup xid && !env.isCurrent xid &&
    env.isInProgress xid && !ZHeapXidIsLockedOnly tup.infomask
  else false

/-- Spec-side condition (following claim C9's words) under which
ZHeapTupleSatisfiesDirty writes snapshot.xmin: an in-progress
transaction, other than the current one, inserted the tuple, and the
all-visible shortcut did not fire. -/
def dirtyWritesXmin (env : Env) (tup : ZTuple) (xid : Nat) : Bool :=
  !(tup.infomask.deleted || tup.infomask.updated) &&
  !(tup.infomask.inplaceUpdated || tup.infomask.xidLockOnly) &&
  !allVisibleShortcut env tup xid && !env.isCurrent xid &&
  env.isInProgress xid

/-- Well-founded undo environments: every fetched record's blkprev, and
the page-slot undo pointer of the record's reconstructed tuple, lie
strictly below the fetch site.  This is the embedding of the spec's
chain invariants (chains are singly linked and terminate; undo is
written forward in time, so every link points to an older record). -/
def EnvWF (env : Env) : Prop :=
  ∀ p blk off px r, env.fetch p blk off px = some r →
    r.uur_blkprev < p ∧
    (env.transinfo (slotIndex r.uur_tuple.slot)).2 < p

/-- An infomask with no flag set. -/
def maskClear : Infomask :=
  { deleted := false, updated := false, inplaceUpdated := false,
    xidLockOnly := false, invalidXactSlot := false }

/-- A base environment for the concrete test instances: the undo log is
empty and the oracle answers false everywhere. -/
def envBase : Env :=
  { fetch := fun _ _ _ _ => none,
    transinfo := fun _ => (0, 0),
    recentGlobalXmin := 100,
    isCurrent := fun _ => false,
    isInProgress := fun _ => false,
    didCommit := fun _ => false,
    xidInSnapshot := fun _ _ => false,
    getCid := fun _ => 0,
    getCtid := fun _ => (0, 0) }

/-- A baseline snapshot with curcid 5. -/
def snapBase : Snapshot :=
  { curcid := 5, xmin := 0, xmax := 0, speculativeToken := 0 }

/-- A frozen tuple marked deleted. -/
def tupFrozenDeleted : ZTuple :=
  { self := (1, 1), infomask := { maskClear with deleted := true },
    slot := XactSlot.frozen }

/-- A frozen tuple with a clear infomask (a plain old insert). -/
def tupFrozenClear : ZTuple :=
  { self := (1, 1), infomask := maskClear, slot := XactSlot.frozen }

/-- A placeholder tuple image carried inside test undo records. -/
def tupImageIdx1 : ZTuple :=
  { self := (1, 1), infomask := maskClear, slot := XactSlot.idx 1 }

/-- Test environment for the inner identity loop: pointer 9 holds an
in-place-update record of xid 150 linking to pointer 8, which holds the
UNDO_INVALID_XACT_SLOT boundary record of the same xid. -/
def envInner : Env :=
  { envBase with
    fetch := fun p _ _ _ =>
      if p = 9 then
        some { uur_type := UndoRecType.inplaceUpdate, uur_prevxid := 150,
               uur_cid := 1, uur_blkprev := 8, uur_payload_ctid := (0, 0),
               uur_tuple := tupImageIdx1 }
      else if p = 8 then
        some { uur_type := UndoRecType.invalidXactSlot, uur_prevxid := 150,
               uur_cid := 2, uur_blkprev := 3, uur_payload_ctid := (0, 0),
               uur_tuple := tupImageIdx1 }
      else none }

/-- A non-frozen tuple on block 2 offset 3, used with the empty undo
log to exercise the discarded-record path of the walkers. -/
def tupDiscard : ZTuple :=
  { self := (2, 3), infomask := { maskClear with inplaceUpdated := true },
    slot := XactSlot.idx 1 }

/-- The undo-tuple image materialized by the slot-switch test record:
it sits in slot 2 and still carries ZHEAP_INVALID_XACT_SLOT. -/
def tupSwitchImage : ZTuple :=
  { self := (9, 9),
    infomask := { maskClear with inplaceUpdated := true, invalidXactSlot := true },
    slot := XactSlot.idx 2 }

/-- Test environment for the slot-switch claim: pointer 20 holds an
in-place-update record of xid 150 whose reconstructed tuple moved to
slot 2; slot 2's own undo pointer is 15 in the page slot table. -/
def envSwitch : Env :=
  { envBase with
    transinfo := fun i => if i = 2 then (150, 15) else (0, 0),
    fetch := fun p _ _ _ =>
      if p = 20 then
        some { uur_type := UndoRecType.inplaceUpdate, uur_prevxid := 150,
               uur_cid := 1, uur_blkprev := 10, uur_payload_ctid := (0, 0),
               uur_tuple := tupSwitchImage }
      else none }

/-- The starting tuple for the slot-switch test: slot 1, in-place
updated. -/
def tupSwitchStart : ZTuple :=
  { self := (1, 2), infomask := { maskClear with inplaceUpdated := true },
    slot := XactSlot.idx 1 }

/-- The undo-tuple image for the ordinary slot-switch test: it sits in
slot 2 and does not carry ZHEAP_INVALID_XACT_SLOT. -/
def tupSwitchImage2 : ZTuple :=
  { self := (9, 9), infomask := { maskClear with inplaceUpdated := true },
    slot := XactSlot.idx 2 }

/-- The undo record for the ordinary slot-switch test: an in-place
update of xid 150 whose reconstructed tuple moved to slot 2, with a
clear invalid-slot flag. -/
def recSwitch2 : UndoRecord :=
  { uur_type := UndoRecType.inplaceUpdate, uur_prevxid := 150,
    uur_cid := 1, uur_blkprev := 10, uur_payload_ctid := (0, 0),
    uur_tuple := tupSwitchImage2 }

/-- Test environment for the ordinary slot-switch step (no
ZHEAP_INVALID_XACT_SLOT on the materialized tuple): pointer 20 holds
`recSwitch2`; slot 2's own undo pointer is 15 in the page slot table;
xid 150 is aborted, so the walker digs deeper from the reset pointer. -/
def envSwitch2 : Env :=
  { envBase with
    transinfo := fun i => if i = 2 then (150, 15) else (0, 0),
    fetch := fun p _ _ _ => if p = 20 then some recSwitch2 else none }

/-- Test environment for the self-modification claims: slot 1 belongs
to xid 200, which is the current transaction, with cid 3. -/
def envSelf : Env :=
  { envBase with
    transinfo := fun i => if i = 1 then (200, 9) else (0, 0),
    isCurrent := fun x => x = 200,
    getCid := fun _ => 3 }

/-- A deleted tuple in slot 1 (for the self-delete counterexample). -/
def tupSelfDeleted : ZTuple :=
  { self := (1, 1), infomask := { maskClear with deleted := true },
    slot := XactSlot.idx 1 }

/-- An in-place-updated tuple in slot 1. -/
def tupSelfInplace : ZTuple :=
  { self := (1, 1), infomask := { maskClear with inplaceUpdated := true },
    slot := XactSlot.idx 1 }

/-- Test environment for the committed non-in-place update: slot 2
belongs to xid 80, which committed; the moved-to pointer recorded in
undo is (5, 9). -/
def envCommitted : Env :=
  { envBase with
    transinfo := fun i => if i = 2 then (80, 9) else (0, 0),
    didCommit := fun x => x = 80,
    getCtid := fun _ => (5, 9) }

/-- A non-in-place-updated (moved) tuple in slot 2. -/
def tupMoved : ZTuple :=
  { self := (3, 4), infomask := { maskClear with updated := true },
    slot := XactSlot.idx 2 }

/-- The tuple image inside the termination-test record: slot 1, clear
mask. -/
def tupTermImage : ZTuple :=
  { self := (1, 1), infomask := maskClear, slot := XactSlot.idx 1 }

/-- Test environment for the termination claim: one undo record at
pointer 5, of xid 40 (behind the horizon 100), linking to pointer 0;
slot pointers in the page table are all 2. -/
def envTerm : Env :=
  { envBase with
    transinfo := fun _ => (40, 2),
    fetch := fun p _ _ _ =>
      if p = 5 then
        some { uur_type := UndoRecType.inplaceUpdate, uur_prevxid := 40,
               uur_cid := 1, uur_blkprev := 0, uur_payload_ctid := (0, 0),
               uur_tuple := tupTermImage }
      else none }

/-- An environment whose slot 1 belongs to in-progress xid 160 (root
insert case of the dirty-snapshot claims). -/
def envInProgress : Env :=
  { envBase with
    transinfo := fun i => if i = 1 then (160, 3) else (0, 0),
    isInProgress := fun x => x = 160 }

/-- A freshly inserted tuple in slot 1 (clear infomask). -/
def tupInsertIdx1 : ZTuple :=
  { self := (1, 1), infomask := maskClear, slot := XactSlot.idx 1 }

/-- Test environment for the aborted-transaction claims: slot 1 belongs
to xid 50, behind the horizon 100, and the oracle knows nothing about
xid 50 (not current, not in progress, not committed: aborted). -/
def envAborted : Env :=
  { envBase with
    transinfo := fun i => if i = 1 then (50, 7) else (0, 0) }

/-- An in-place-updated tuple in slot 1 (aborted shortcut case). -/
def tupAbortedInplace : ZTuple :=
  { self := (1, 1), infomask := { maskClear with inplaceUpdated := true },
    slot := XactSlot.idx 1 }

/-- Test environment for the aborted case beyond the horizon: slot 1
belongs to xid 300, which the oracle reports aborted. -/
def envAbortedLive : Env :=
  { envBase with
    transinfo := fun i => if i = 1 then (300, 7) else (0, 0) }

/-- A deleted tuple in slot 1 (aborted delete case). -/
def tupAbortedDeleted : ZTuple :=
  { self := (1, 1), infomask := { maskClear with deleted := true },
    slot := XactSlot.idx 1 }

/-- Invariant carried through the termination proof: the walk did not
run out of fuel, its fetch trace is strictly descending, and every
fetched pointer lies at or below the starting pointer. -/
def WalkOK {α : Type} (ptr : Nat) (out : Res α × List Nat) : Prop :=
  out.1 ≠ Res.fuelOut ∧
  List.Pairwise (fun a b => b < a) out.2 ∧
  ∀ x ∈ out.2, x ≤ ptr

theorem resolveIdentTop_frozen (env : Env) (fuel : Nat) (tup : ZTuple)
    (h : tup.slot = XactSlot.frozen) :
    resolveIdentTop env fuel tup =
      (some (InvalidTransactionId, InvalidCommandId, InvalidUndoRecPtr), []) := by
  unfold resolveIdentTop
  rw [h]

theorem allVisibleShortcut_frozen (env : Env) (tup : ZTuple) (xid : Nat)
    (h : tup.slot = XactSlot.frozen) :
    allVisibleShortcut env tup xid = true := by
  simp [allVisibleShortcut, ZHeapTupleHeaderGetXactSlot, h]

/-- Claim C1, counterexample: the frozen tuple with ZHEAP_DELETED set is
not returned by ZHeapTupleSatisfiesMVCC; the all-visible-dead shortcut
makes MVCC return NULL, while the claim asserts a non-null version is
returned for every snapshot, DELETED included. -/
theorem frozen_deleted_mvcc_counterexample :
    tupFrozenDeleted.slot = XactSlot.frozen ∧
    tupFrozenDeleted.infomask.deleted = true ∧
    ZHeapTupleSatisfiesMVCC envBase 3 tupFrozenDeleted snapBase = (Res.ok none, []) := by
  refine ⟨rfl, rfl, by decide⟩

/-- Claim C1, amended: a tuple whose slot is frozen and whose infomask
has neither DELETED nor UPDATED is returned by ZHeapTupleSatisfiesMVCC,
ZHeapTupleSatisfiesDirty and ZHeapTupleSatisfiesAny regardless of the
snapshot; a frozen DELETED or UPDATED tuple is still returned by
SatisfiesAny, but SatisfiesMVCC returns NULL for it (the
all-visible-dead shortcut). -/
theorem frozen_visibility_amended (env : Env) (fuel : Nat) (tup : ZTuple)
    (snap : Snapshot) (wantCtid : Bool)
    (hslot : tup.slot = XactSlot.frozen) :
    ((tup.infomask.deleted || tup.infomask.updated) = false →
      ZHeapTupleSatisfiesMVCC env fuel tup snap = (Res.ok (some tup), []) ∧
      ZHeapTupleSatisfiesDirty env fuel tup snap wantCtid =
        (Res.ok { result := some tup, snapOut := entrySnapshot snap,
                  ctidOut := none }, [])) ∧
    ZHeapTupleSatisfiesAny tup snap = tup ∧
    ((tup.infomask.deleted || tup.infomask.updated) = true →
      ZHeapTupleSatisfiesMVCC env fuel tup snap = (Res.ok none, [])) := by
  have hres := resolveIdentTop_frozen env fuel tup hslot
  have hall := allVisibleShortcut_frozen env tup InvalidTransactionId hslot
  refine ⟨fun hdu => ?_, rfl, fun hdu => ?_⟩
  · constructor
    · unfold ZHeapTupleSatisfiesMVCC
      rw [hres]
      simp only [hdu, hall]
      cases h2 : (tup.infomask.inplaceUpdated || tup.infomask.xidLockOnly) <;>
        simp [h2]
    · unfold ZHeapTupleSatisfiesDirty
      rw [hres]
      simp only [hdu, hall]
      cases h2 : (tup.infomask.inplaceUpdated || tup.infomask.xidLockOnly) <;>
        simp [h2]
  · unfold ZHeapTupleSatisfiesMVCC
    rw [hres]
    simp [hdu, hall]

/-- Claim C1, amended, witness at a concrete frozen insert. -/
theorem frozen_visibility_amended_witness :
    tupFrozenClear.slot = XactSlot.frozen ∧
    (tupFrozenClear.infomask.deleted || tupFrozenClear.infomask.updated) = false ∧
    ZHeapTupleSatisfiesMVCC envBase 3 tupFrozenClear snapBase =
      (Res.ok (some tupFrozenClear), []) :=
  ⟨by decide, by decide,
   ((frozen_visibility_amended envBase 3 tupFrozenClear snapBase false
       (by decide)).1 (by decide)).1⟩

/-- Claim C3 (code bug): when the very first undo record of a walk has
been discarded, UndoFetchRecord returns NULL and both GetTupleFromUndo
and UndoTupleSatisfiesUpdate dereference that NULL pointer
(urec->uur_type, ztqual.c lines 74 and 284) instead of producing the
visible-default answer the spec prescribes; the embedding marks the
dereference as a crash. -/
theorem discarded_first_fetch_crashes :
    envBase.fetch 7 tupDiscard.self.1 tupDiscard.self.2 InvalidTransactionId = none ∧
    GetTupleFromUndo envBase 5 7 tupDiscard snapBase InvalidTransactionId =
      (Res.crash, [7]) ∧
    UndoTupleSatisfiesUpdate envBase 5 7 tupDiscard 5 true InvalidTransactionId false =
      (Res.crash, [7]) := by
  refine ⟨rfl, by decide, by decide⟩

/-- Claim C5: ZHeapTupleIsSurelyDead answers true exactly when the
tuple's infomask has DELETED or UPDATED and the all-visible shortcut
(frozen slot, or resolved xid preceding RecentGlobalXmin) fires on the
identity produced by the shared resolution; and whenever it answers
true, ZHeapTupleSatisfiesMVCC returns NULL for every snapshot. -/
theorem surely_dead_sound_and_characterized (env : Env) (fuel : Nat)
    (tup : ZTuple) (oldest : Nat) (snap : Snapshot) (xid c p : Nat)
    (tr : List Nat)
    (hres : resolveIdentTop env fuel tup = (some (xid, c, p), tr)) :
    (ZHeapTupleIsSurelyDead env fuel tup oldest).1 =
      some ((tup.infomask.deleted || tup.infomask.updated) &&
            allVisibleShortcut env tup xid) ∧
    ((ZHeapTupleIsSurelyDead env fuel tup oldest).1 = some true →
      (ZHeapTupleSatisfiesMVCC env fuel tup snap).1 = Res.ok none) := by
  have hchar : (ZHeapTupleIsSurelyDead env fuel tup oldest).1 =
      some ((tup.infomask.deleted || tup.infomask.updated) &&
            allVisibleShortcut env tup xid) := by
    unfold ZHeapTupleIsSurelyDead
    rw [hres]
    cases hdu : (tup.infomask.deleted || tup.infomask.updated) <;> simp [hdu]
  refine ⟨hchar, fun htrue => ?_⟩
  rw [hchar] at htrue
  have hand : ((tup.infomask.deleted || tup.infomask.updated) &&
      allVisibleShortcut env tup xid) = true := by
    exact Option.some.inj htrue
  have hdu : (tup.infomask.deleted || tup.infomask.updated) = true :=
    (Bool.and_eq_true_iff.mp hand).1
  have hsc : allVisibleShortcut env tup xid = true :=
    (Bool.and_eq_true_iff.mp hand).2
  unfold ZHeapTupleSatisfiesMVCC
  rw [hres]
  simp [hdu, hsc]

/-- Claim C5, witness at the concrete frozen deleted tuple. -/
theorem surely_dead_sound_witness :
    resolveIdentTop envBase 3 tupFrozenDeleted =
      (some (InvalidTransactionId, InvalidCommandId, InvalidUndoRecPtr), []) ∧
    (ZHeapTupleIsSurelyDead envBase 3 tupFrozenDeleted 90).1 = some true ∧
    (ZHeapTupleSatisfiesMVCC envBase 3 tupFrozenDeleted snapBase).1 = Res.ok none :=
  ⟨by decide, by decide,
   (surely_dead_sound_and_characterized envBase 3 tupFrozenDeleted 90 snapBase
      InvalidTransactionId InvalidCommandId InvalidUndoRecPtr [] (by decide)).2
     (by decide)⟩

/-- Claim C6, counterexample: a tuple deleted by the current transaction
with cid 3 before curcid 5 is not returned as a new image; both
ZHeapTupleSatisfiesMVCC and ZHeapTupleSatisfiesDirty return NULL for it
(deleted before scan started), refuting the claim for the
deleted/non-in-place-updated infomask class. -/
theorem self_deleted_before_curcid_counterexample :
    (resolveIdentTop envSelf 3 tupSelfDeleted).1 = some (200, 3, 9) ∧
    envSelf.isCurrent 200 = true ∧ 3 < snapBase.curcid ∧
    tupSelfDeleted.infomask.deleted = true ∧
    ZHeapTupleSatisfiesMVCC envSelf 3 tupSelfDeleted snapBase = (Res.ok none, []) ∧
    (ZHeapTupleSatisfiesDirty envSelf 3 tupSelfDeleted snapBase false).1 =
      Res.ok { result := none, snapOut := entrySnapshot snapBase, ctidOut := none } := by
  refine ⟨by decide, by decide, by decide, rfl, by decide, by decide⟩

/-- Claim C6, amended: for a tuple whose latest modification was made by
the current transaction with cid strictly before the snapshot's curcid,
ZHeapTupleSatisfiesMVCC and ZHeapTupleSatisfiesDirty return the new
image when the modification class is in-place update, lock-only, or
insert; for the delete/non-in-place-update class the deletion itself is
visible, and both predicates return NULL. -/
theorem self_before_curcid_amended (env : Env) (fuel : Nat) (tup : ZTuple)
    (snap : Snapshot) (wantCtid : Bool) (xid c p : Nat) (tr : List Nat)
    (hres : resolveIdentTop env fuel tup = (some (xid, c, p), tr))
    (hcur : env.isCurrent xid = true) (hcid : c < snap.curcid) :
    ((tup.infomask.deleted || tup.infomask.updated) = false →
      ZHeapTupleSatisfiesMVCC env fuel tup snap = (Res.ok (some tup), tr) ∧
      ZHeapTupleSatisfiesDirty env fuel tup snap wantCtid =
        (Res.ok { result := some tup, snapOut := entrySnapshot snap,
                  ctidOut := none }, tr)) ∧
    ((tup.infomask.deleted || tup.infomask.updated) = true →
      ZHeapTupleSatisfiesMVCC env fuel tup snap = (Res.ok none, tr) ∧
      ZHeapTupleSatisfiesDirty env fuel tup snap wantCtid =
        (Res.ok { result := none, snapOut := entrySnapshot snap,
                  ctidOut := if tup.infomask.updated && wantCtid
                             then some (env.getCtid tup) else none }, tr)) := by
  have hnc : ¬ snap.curcid ≤ c := Nat.not_le.mpr hcid
  refine ⟨fun hdu => ?_, fun hdu => ?_⟩
  · constructor
    · unfold ZHeapTupleSatisfiesMVCC
      rw [hres]
      simp only [hdu]
      cases h2 : (tup.infomask.inplaceUpdated || tup.infomask.xidLockOnly) <;>
        cases h3 : allVisibleShortcut env tup xid <;>
        cases h4 : ZHeapXidIsLockedOnly tup.infomask <;>
        simp [h2, h3, h4, hcur, hnc]
    · unfold ZHeapTupleSatisfiesDirty
      rw [hres]
      simp only [hdu]
      cases h2 : (tup.infomask.inplaceUpdated || tup.infomask.xidLockOnly) <;>
        cases h3 : allVisibleShortcut env tup xid <;>
        simp [h2, h3, hcur]
  · constructor
    · unfold ZHeapTupleSatisfiesMVCC
      rw [hres]
      cases h3 : allVisibleShortcut env tup xid <;>
        simp [hdu, h3, hcur, hnc]
    · unfold ZHeapTupleSatisfiesDirty
      rw [hres]
      simp [hdu, hcur]

/-- Claim C6, amended, witness at a concrete self in-place update with
cid 3 and curcid 5. -/
theorem self_before_curcid_amended_witness :
    resolveIdentTop envSelf 3 tupSelfInplace = (some (200, 3, 9), []) ∧
    envSelf.isCurrent 200 = true ∧ 3 < snapBase.curcid ∧
    ZHeapTupleSatisfiesMVCC envSelf 3 tupSelfInplace snapBase =
      (Res.ok (some tupSelfInplace), []) :=
  ⟨by decide, by decide, by decide,
   ((self_before_curcid_amended envSelf 3 tupSelfInplace snapBase false 200 3 9 []
       (by decide) (by decide) (by decide)).1 (by decide)).1⟩

/-- Claim C7: a DELETED or non-in-place-UPDATED tuple whose resolved xid
committed (and is neither current nor in progress) makes
ZHeapTupleSatisfiesUpdate return HeapTupleUpdated; when the tuple is
UPDATED and a ctid out pointer is supplied, the ctid output is the
moved-to pointer obtained through ZHeapTupleGetCtid, i.e. from the most
recent undo UPDATE record. -/
theorem update_committed_deleted_returns_updated (env : Env) (fuel : Nat)
    (tup : ZTuple) (curcid : Nat) (wantCtid lockAllowed : Bool)
    (snap : Snapshot) (xid c p : Nat) (tr : List Nat)
    (hres : resolveIdentTop env fuel tup = (some (xid, c, p), tr))
    (hdu : (tup.infomask.deleted || tup.infomask.updated) = true)
    (hcur : env.isCurrent xid = false) (hip : env.isInProgress xid = false)
    (hc : env.didCommit xid = true) :
    ZHeapTupleSatisfiesUpdate env fuel tup curcid wantCtid lockAllowed snap =
      (Res.ok { result := HTSUResult.updated, xidOut := xid,
                cidOut := if tup.slot = XactSlot.frozen then none else some c,
                ctidOut := if tup.infomask.updated && wantCtid
                           then some (env.getCtid tup) else none,
                inPlaceUpdatedOrLocked := false }, tr) := by
  unfold ZHeapTupleSatisfiesUpdate
  rw [hres]
  simp [hdu, hcur, hip, hc]

/-- Claim C7, witness at the concrete committed non-in-place update of
xid 80 with moved-to pointer (5, 9). -/
theorem update_committed_deleted_witness :
    resolveIdentTop envCommitted 3 tupMoved = (some (80, 0, 9), []) ∧
    (tupMoved.infomask.deleted || tupMoved.infomask.updated) = true ∧
    envCommitted.didCommit 80 = true ∧
    ZHeapTupleSatisfiesUpdate envCommitted 3 tupMoved 5 true false snapBase =
      (Res.ok { result := HTSUResult.updated, xidOut := 80, cidOut := some 0,
                ctidOut := some (5, 9), inPlaceUpdatedOrLocked := false }, []) := by
  refine ⟨by decide, by decide, by decide, ?_⟩
  have h := update_committed_deleted_returns_updated envCommitted 3 tupMoved 5
    true false snapBase 80 0 9 [] (by decide) (by decide) (by decide)
    (by decide) (by decide)
  exact h.trans (by decide)

/-- Claim C9: ZHeapTupleSatisfiesDirty zeroes speculativeToken and sets
xmin and xmax to the invalid xid on entry; afterwards xmax is written
(with the resolved xid) exactly under `dirtyWritesXmax` -- an
in-progress non-current transaction deleted, non-in-place-updated, or
in-place-updated (not lock-only) the tuple -- and xmin exactly under
`dirtyWritesXmin` -- an in-progress non-current transaction inserted
it; on every other path the fields keep the entry values. -/
theorem dirty_snapshot_field_writes (env : Env) (fuel : Nat) (tup : ZTuple)
    (snap : Snapshot) (wantCtid : Bool) (xid c p : Nat) (tr tr2 : List Nat)
    (out : DirtyOut)
    (hres : resolveIdentTop env fuel tup = (some (xid, c, p), tr))
    (hout : ZHeapTupleSatisfiesDirty env fuel tup snap wantCtid = (Res.ok out, tr2)) :
    out.snapOut.speculativeToken = 0 ∧
    out.snapOut.curcid = snap.curcid ∧
    out.snapOut.xmax =
      (if dirtyWritesXmax env tup xid then xid else InvalidTransactionId) ∧
    out.snapOut.xmin =
      (if dirtyWritesXmin env tup xid then xid else InvalidTransactionId) := by
  unfold ZHeapTupleSatisfiesDirty at hout
  rw [hres] at hout
  by_cases hdu : (tup.infomask.deleted || tup.infomask.updated) = true <;>
    by_cases hil : (tup.infomask.inplaceUpdated || tup.infomask.xidLockOnly) = true <;>
    by_cases hsc : allVisibleShortcut env tup xid = true <;>
    by_cases hcu : env.isCurrent xid = true <;>
    by_cases hip : env.isInProgress xid = true <;>
    by_cases hdc : env.didCommit xid = true <;>
    by_cases hlo : ZHeapXidIsLockedOnly tup.infomask = true <;>
    simp only [Bool.not_eq_true] at hdu hil hsc hcu hip hdc hlo <;>
    simp [hdu, hil, hsc, hcu, hip, hdc, hlo, dirtyWritesXmax, dirtyWritesXmin]
      at hout ⊢ <;>
    (obtain ⟨h1, h2⟩ := hout) <;>
    simp [← h1, entrySnapshot]

/-- Claim C9, witness at the concrete in-progress insert by xid 160. -/
theorem dirty_snapshot_field_writes_witness :
    resolveIdentTop envInProgress 3 tupInsertIdx1 = (some (160, 0, 3), []) ∧
    ZHeapTupleSatisfiesDirty envInProgress 3 tupInsertIdx1 snapBase false =
      (Res.ok { result := some tupInsertIdx1,
                snapOut := { entrySnapshot snapBase with xmin := 160 },
                ctidOut := none }, []) ∧
    ({ entrySnapshot snapBase with xmin := 160 } : Snapshot).xmin = 160 ∧
    dirtyWritesXmin envInProgress tupInsertIdx1 160 = true :=
  ⟨by decide, by decide,
   by
     have h := dirty_snapshot_field_writes envInProgress 3 tupInsertIdx1 snapBase
       false 160 0 3 [] []
       { result := some tupInsertIdx1,
         snapOut := { entrySnapshot snapBase with xmin := 160 }, ctidOut := none }
       (by decide) (by decide)
     have h4 := h.2.2.2
     simpa using h4.trans (by decide),
   by decide⟩

/-- Claim C10, counterexample: an in-place-updated tuple whose resolved
xid 50 is aborted (oracle answers false to current, in-progress and
committed) but precedes RecentGlobalXmin 100 takes the all-visible
shortcut, so ZHeapTupleSatisfiesDirty returns the tuple, not NULL as
the claim asserts for every aborted xid. -/
theorem dirty_aborted_shortcut_counterexample :
    (resolveIdentTop envAborted 3 tupAbortedInplace).1 = some (50, 0, 7) ∧
    envAborted.isCurrent 50 = false ∧ envAborted.isInProgress 50 = false ∧
    envAborted.didCommit 50 = false ∧
    (ZHeapTupleSatisfiesDirty envAborted 3 tupAbortedInplace snapBase false).1 =
      Res.ok { result := some tupAbortedInplace, snapOut := entrySnapshot snapBase,
               ctidOut := none } := by
  refine ⟨by decide, rfl, rfl, rfl, by decide⟩

/-- Claim C10, amended: with assertions disabled, a tuple whose resolved
xid is aborted makes ZHeapTupleSatisfiesDirty return NULL in all three
infomask classes, provided that for the in-place/lock-only and insert
classes the all-visible shortcut does not fire; no undo record beyond
the identity resolution is fetched (the trace is unchanged), nothing is
written through the ctid pointer, and snapshot xmin and xmax keep the
invalid values set on entry. -/
theorem dirty_aborted_returns_null_amended (env : Env) (fuel : Nat)
    (tup : ZTuple) (snap : Snapshot) (wantCtid : Bool) (xid c p : Nat)
    (tr : List Nat)
    (hres : resolveIdentTop env fuel tup = (some (xid, c, p), tr))
    (hcur : env.isCurrent xid = false) (hip : env.isInProgress xid = false)
    (hdc : env.didCommit xid = false)
    (hsc : (tup.infomask.deleted || tup.infomask.updated) = false →
           allVisibleShortcut env tup xid = false) :
    ZHeapTupleSatisfiesDirty env fuel tup snap wantCtid =
      (Res.ok { result := none, snapOut := entrySnapshot snap,
                ctidOut := none }, tr) := by
  unfold ZHeapTupleSatisfiesDirty
  rw [hres]
  cases hdu : (tup.infomask.deleted || tup.infomask.updated)
  · have hs := hsc hdu
    cases hil : (tup.infomask.inplaceUpdated || tup.infomask.xidLockOnly) <;>
      simp [hdu, hil, hs, hcur, hip, hdc]
  · simp [hdu, hcur, hip, hdc]

theorem innerLoopSpecPtr_shift (env : Env) (blk off p0 : Nat) (k : Nat) :
    innerLoopSpecPtr env blk off p0 (k + 1) =
      innerLoopSpecPtr env blk off (innerLoopSpecStep env blk off p0) k := by
  induction k with
  | zero => rfl
  | succ k ih =>
    show innerLoopSpecStep env blk off (innerLoopSpecPtr env blk off p0 (k + 1)) =
      innerLoopSpecPtr env blk off (innerLoopSpecStep env blk off p0) (k + 1)
    rw [ih]
    rfl

/-- Claim C2: the inner identity-resolution loop of the undo walkers
realizes first-exit semantics.  If the loop's exit condition (record
discarded, record prev_xid behind the horizon, or an
UNDO_INVALID_XACT_SLOT record whose prev_xid equals the captured xid)
is false at every fetch site before iteration k and true at iteration
k, the loop returns exactly the operative identity of the k-th fetched
record: the invalid xid and cid (pointer unchanged) on the discarded
and behind-horizon exits, and the record's (prev_xid, cid, blkprev)
triple on the owner-boundary exit. -/
theorem inner_identity_loop_first_exit (env : Env) (blk off cap p0 k f : Nat)
    (hpre : ∀ j, j < k →
      innerLoopSpecExit env blk off cap (innerLoopSpecPtr env blk off p0 j) = false)
    (hexit : innerLoopSpecExit env blk off cap (innerLoopSpecPtr env blk off p0 k) = true)
    (hf : k < f) :
    (innerIdentityLoop env f p0 blk off cap).1 =
      some (innerLoopSpecVal env blk off (innerLoopSpecPtr env blk off p0 k)) := by
  induction k generalizing p0 f with
  | zero =>
    obtain ⟨f, rfl⟩ : ∃ g, f = g + 1 := ⟨f - 1, by omega⟩
    simp only [innerLoopSpecPtr] at hexit ⊢
    unfold innerLoopSpecExit at hexit
    unfold innerIdentityLoop innerLoopSpecVal
    cases hfe : env.fetch p0 blk off InvalidTransactionId with
    | none => simp [hfe]
    | some r =>
      simp only [hfe] at hexit
      by_cases hpr : TransactionIdPrecedes r.uur_prevxid env.recentGlobalXmin = true
      · simp [hfe, hpr]
      · have hpr2 : TransactionIdPrecedes r.uur_prevxid env.recentGlobalXmin = false :=
          Bool.not_eq_true _ |>.mp hpr
        rw [hpr2] at hexit
        simp only [Bool.false_or, Bool.and_eq_true, decide_eq_true_eq] at hexit
        simp [hfe, hpr2, hexit.1, hexit.2]
  | succ k ih =>
    obtain ⟨f, rfl⟩ : ∃ g, f = g + 1 := ⟨f - 1, by omega⟩
    have h0 := hpre 0 (Nat.succ_pos k)
    simp only [innerLoopSpecPtr] at h0
    unfold innerLoopSpecExit at h0
    cases hfe : env.fetch p0 blk off InvalidTransactionId with
    | none => simp [hfe] at h0
    | some r =>
      simp only [hfe, Bool.or_eq_false_iff, Bool.and_eq_false_iff,
        decide_eq_false_iff_not] at h0
      have hstep : innerLoopSpecStep env blk off p0 = r.uur_blkprev := by
        unfold innerLoopSpecStep
        rw [hfe]
      have hcont : ¬ (r.uur_type = UndoRecType.invalidXactSlot ∧ cap = r.uur_prevxid) := by
        rcases h0.2 with h | h
        · exact fun hc => h hc.1
        · exact fun hc => h hc.2
      have hres : (innerIdentityLoop env (f + 1) p0 blk off cap).1 =
          (innerIdentityLoop env f r.uur_blkprev blk off cap).1 := by
        conv_lhs => unfold innerIdentityLoop
        simp only [hfe]
        rw [if_neg (by simp [h0.1]), if_neg hcont]
      rw [hres]
      have hpre2 : ∀ j, j < k →
          innerLoopSpecExit env blk off cap
            (innerLoopSpecPtr env blk off r.uur_blkprev j) = false := by
        intro j hj
        have := hpre (j + 1) (by omega)
        rwa [innerLoopSpecPtr_shift, hstep] at this
      have hexit2 : innerLoopSpecExit env blk off cap
          (innerLoopSpecPtr env blk off r.uur_blkprev k) = true := by
        rw [innerLoopSpecPtr_shift, hstep] at hexit
        exact hexit
      have hgoal := ih r.uur_blkprev f hpre2 hexit2 (by omega)
      rw [hgoal, innerLoopSpecPtr_shift, hstep]

/-- Claim C2, witness: in the two-record environment the loop skips the
non-boundary record at pointer 9 and exits at the boundary record at
pointer 8, returning its (prev_xid, cid, blkprev) = (150, 2, 3). -/
theorem inner_identity_loop_first_exit_witness :
    (∀ j, j < 1 →
      innerLoopSpecExit envInner 1 1 150 (innerLoopSpecPtr envInner 1 1 9 j) = false) ∧
    innerLoopSpecExit envInner 1 1 150 (innerLoopSpecPtr envInner 1 1 9 1) = true ∧
    (1 : Nat) < 3 ∧
    (innerIdentityLoop envInner 3 9 1 1 150).1 =
      some (innerLoopSpecVal envInner 1 1 (innerLoopSpecPtr envInner 1 1 9 1)) :=
  ⟨by decide, by decide, by decide,
   inner_identity_loop_first_exit envInner 1 1 150 9 1 3 (by decide) (by decide)
     (by decide)⟩

theorem innerIdentityLoop_trace_head (env : Env) (f p blk off cap : Nat) :
    ∃ t, (innerIdentityLoop env (f+1) p blk off cap).2 = p :: t := by
  unfold innerIdentityLoop
  cases hfe : env.fetch p blk off InvalidTransactionId with
  | none => exact ⟨[], by simp [hfe]⟩
  | some r =>
    by_cases h1 : TransactionIdPrecedes r.uur_prevxid env.recentGlobalXmin = true
    · exact ⟨[], by simp [hfe, h1]⟩
    · by_cases h2 : r.uur_type = UndoRecType.invalidXactSlot ∧ cap = r.uur_prevxid
      · exact ⟨[], by simp [hfe, h1, h2]⟩
      · exact ⟨(innerIdentityLoop env f r.uur_blkprev blk off cap).2,
          by simp [hfe, h1, h2]⟩

theorem fetchSkipInvalid_trace_head (env : Env) (f p blk off px : Nat) :
    ∃ t, (fetchSkipInvalid env (f+1) p blk off px).2 = p :: t := by
  unfold fetchSkipInvalid
  cases hfe : env.fetch p blk off px with
  | none => exact ⟨[], by simp [hfe]⟩
  | some u =>
    by_cases ht : u.uur_type = UndoRecType.invalidXactSlot
    · exact ⟨(fetchSkipInvalid env f u.uur_blkprev blk off px).2, by simp [hfe, ht]⟩
    · exact ⟨[], by simp [hfe, ht]⟩

theorem GetTupleFromUndo_trace_head (env : Env) (f p : Nat) (tup : ZTuple)
    (snap : Snapshot) (px : Nat) :
    ∃ t, (GetTupleFromUndo env (f+1) p tup snap px).2 = p :: t := by
  obtain ⟨t0, h0⟩ := fetchSkipInvalid_trace_head env f p tup.self.1 tup.self.2 px
  rcases hS : fetchSkipInvalid env (f+1) p tup.self.1 tup.self.2 px with ⟨s1, s2⟩
  rw [hS] at h0
  simp only at h0
  unfold GetTupleFromUndo
  dsimp only
  rw [hS]
  cases s1 with
  | crash => exact ⟨t0, h0⟩
  | fuelOut => exact ⟨t0, h0⟩
  | ok pr =>
    obtain ⟨site, urec⟩ := pr
    dsimp only
    rw [h0]
    simp only [List.cons_append, List.append_assoc]
    exact ⟨_, rfl⟩

theorem UndoTupleSatisfiesUpdate_trace_head (env : Env) (f p : Nat)
    (tup : ZTuple) (curcid : Nat) (wantCtid : Bool) (px : Nat) (iplIn : Bool) :
    ∃ t, (UndoTupleSatisfiesUpdate env (f+1) p tup curcid wantCtid px iplIn).2 =
      p :: t := by
  obtain ⟨t0, h0⟩ := fetchSkipInvalid_trace_head env f p tup.self.1 tup.self.2 px
  rcases hS : fetchSkipInvalid env (f+1) p tup.self.1 tup.self.2 px with ⟨s1, s2⟩
  rw [hS] at h0
  simp only at h0
  unfold UndoTupleSatisfiesUpdate
  dsimp only
  rw [hS]
  cases s1 with
  | crash => exact ⟨t0, h0⟩
  | fuelOut => exact ⟨t0, h0⟩
  | ok pr =>
    obtain ⟨site, urec⟩ := pr
    dsimp only
    rw [h0]
    simp only [List.cons_append, List.append_assoc]
    exact ⟨_, rfl⟩

/-- Claim C4: whenever the materialized undo tuple of a chain step
carries a non-frozen slot different from the previous step's slot
(prev_trans_slot_id), the pointer used for the next fetch -- whether
that fetch is issued by the inner identity-resolution loop or by the
recursive chain step -- is the undo tuple's own slot-derived undo
pointer read from the page special area (ZHeapTupleHeaderGetRawUndoPtr),
not the just-read record's blkprev: in both GetTupleFromUndo and
UndoTupleSatisfiesUpdate the fetch trace either stops (no further fetch
is issued on that execution) or continues with exactly that pointer. -/
theorem slot_switch_next_fetch (env : Env) (f p0 : Nat) (tup : ZTuple)
    (snap : Snapshot) (px curcid : Nat) (wantCtid iplIn : Bool) (r : UndoRecord)
    (hfe : env.fetch p0 tup.self.1 tup.self.2 px = some r)
    (htype : r.uur_type ≠ UndoRecType.invalidXactSlot)
    (hfroz : (CopyTupleFromUndoRecord r tup).slot ≠ XactSlot.frozen)
    (hdiff : (CopyTupleFromUndoRecord r tup).slot ≠ tup.slot) :
    ((GetTupleFromUndo env (f+1) p0 tup snap px).2 = [p0] ∨
     ∃ rest, (GetTupleFromUndo env (f+1) p0 tup snap px).2 =
       p0 :: ZHeapTupleHeaderGetRawUndoPtr env (CopyTupleFromUndoRecord r tup) :: rest) ∧
    ((UndoTupleSatisfiesUpdate env (f+1) p0 tup curcid wantCtid px iplIn).2 = [p0] ∨
     ∃ rest, (UndoTupleSatisfiesUpdate env (f+1) p0 tup curcid wantCtid px iplIn).2 =
       p0 :: ZHeapTupleHeaderGetRawUndoPtr env (CopyTupleFromUndoRecord r tup) :: rest) := by
  have hskip : fetchSkipInvalid env (f+1) p0 tup.self.1 tup.self.2 px =
      (Res.ok (p0, r), [p0]) := by
    unfold fetchSkipInvalid
    simp [hfe, htype]
  constructor
  · unfold GetTupleFromUndo
    simp only [hskip, ZHeapTupleHeaderGetXactSlot]
    by_cases hhor : TransactionIdPrecedes r.uur_prevxid env.recentGlobalXmin = false
    · by_cases hinv : (CopyTupleFromUndoRecord r tup).infomask.invalidXactSlot = true
      · obtain ⟨t, ht⟩ := innerIdentityLoop_trace_head env f
          (ZHeapTupleHeaderGetRawUndoPtr env (CopyTupleFromUndoRecord r tup))
          tup.self.1 tup.self.2 r.uur_prevxid
        rw [if_pos ⟨hfroz, hhor⟩, if_pos hinv, if_pos ⟨hfroz, hdiff⟩, ht]
        right
        simp only [List.cons_append, List.nil_append, List.append_assoc]
        exact ⟨_, rfl⟩
      · rw [if_pos ⟨hfroz, hhor⟩, if_neg hinv, if_pos ⟨hfroz, hdiff⟩]
        dsimp only
        have hnsc : ¬ ((CopyTupleFromUndoRecord r tup).slot = XactSlot.frozen ∨
            TransactionIdPrecedes r.uur_prevxid env.recentGlobalXmin = true) := by
          rintro (hx | hx)
          · exact hfroz hx
          · rw [hhor] at hx
            exact Bool.false_ne_true hx
        rw [if_neg hnsc]
        cases hdec : mvccUndoDecision env snap (CopyTupleFromUndoRecord r tup)
            (if (CopyTupleFromUndoRecord r tup).infomask.inplaceUpdated then
              UndoOper.inplaceUpdated
            else if (CopyTupleFromUndoRecord r tup).infomask.xidLockOnly then
              UndoOper.lockOnly
            else UndoOper.other) r.uur_prevxid
            (env.getCid (CopyTupleFromUndoRecord r tup)) with
        | ret v => left; simp
        | recurse =>
          cases f with
          | zero => left; simp [GetTupleFromUndo]
          | succ f2 =>
            obtain ⟨t2, ht2⟩ := GetTupleFromUndo_trace_head env f2
              (ZHeapTupleHeaderGetRawUndoPtr env (CopyTupleFromUndoRecord r tup))
              (CopyTupleFromUndoRecord r tup) snap r.uur_prevxid
            rw [ht2]
            right
            simp only [List.cons_append, List.nil_append, List.append_assoc]
            exact ⟨_, rfl⟩
    · have hhor2 : TransactionIdPrecedes r.uur_prevxid env.recentGlobalXmin = true := by
        revert hhor
        cases TransactionIdPrecedes r.uur_prevxid env.recentGlobalXmin <;> simp
      have hnc : ¬ ((CopyTupleFromUndoRecord r tup).slot ≠ XactSlot.frozen ∧
          TransactionIdPrecedes r.uur_prevxid env.recentGlobalXmin = false) := by
        intro hc
        rw [hhor2] at hc
        simp at hc
      rw [if_neg hnc]
      dsimp only
      rw [if_pos (Or.inr hhor2)]
      left
      simp
  · unfold UndoTupleSatisfiesUpdate
    simp only [hskip, ZHeapTupleHeaderGetXactSlot]
    by_cases hhor : TransactionIdPrecedes r.uur_prevxid env.recentGlobalXmin = false
    · by_cases hinv : (CopyTupleFromUndoRecord r tup).infomask.invalidXactSlot = true
      · obtain ⟨t, ht⟩ := innerIdentityLoop_trace_head env f
          (ZHeapTupleHeaderGetRawUndoPtr env (CopyTupleFromUndoRecord r tup))
          tup.self.1 tup.self.2 r.uur_prevxid
        rw [if_pos ⟨hfroz, hhor⟩, if_pos hinv, if_pos ⟨hfroz, hdiff⟩, ht]
        right
        simp only [List.cons_append, List.nil_append, List.append_assoc]
        exact ⟨_, rfl⟩
      · rw [if_pos ⟨hfroz, hhor⟩, if_neg hinv, if_pos ⟨hfroz, hdiff⟩]
        dsimp only
        have hnsc : ¬ ((CopyTupleFromUndoRecord r tup).slot = XactSlot.frozen ∨
            TransactionIdPrecedes r.uur_prevxid env.recentGlobalXmin = true) := by
          rintro (hx | hx)
          · exact hfroz hx
          · rw [hhor] at hx
            exact Bool.false_ne_true hx
        rw [if_neg hnsc]
        cases hdec : updateUndoDecision env curcid
            (if (CopyTupleFromUndoRecord r tup).infomask.inplaceUpdated then
              UndoOper.inplaceUpdated
            else if (CopyTupleFromUndoRecord r tup).infomask.xidLockOnly then
              UndoOper.lockOnly
            else UndoOper.other) r.uur_prevxid
            (env.getCid (CopyTupleFromUndoRecord r tup)) with
        | ret b => left; simp
        | recurse =>
          cases f with
          | zero => left; simp [UndoTupleSatisfiesUpdate]
          | succ f2 =>
            obtain ⟨t2, ht2⟩ := UndoTupleSatisfiesUpdate_trace_head env f2
              (ZHeapTupleHeaderGetRawUndoPtr env (CopyTupleFromUndoRecord r tup))
              (CopyTupleFromUndoRecord r tup) curcid wantCtid r.uur_prevxid
              (iplIn || (CopyTupleFromUndoRecord r tup).infomask.inplaceUpdated ||
                (CopyTupleFromUndoRecord r tup).infomask.xidLockOnly)
            rw [ht2]
            right
            simp only [List.cons_append, List.nil_append, List.append_assoc]
            exact ⟨_, rfl⟩
    · have hhor2 : TransactionIdPrecedes r.uur_prevxid env.recentGlobalXmin = true := by
        revert hhor
        cases TransactionIdPrecedes r.uur_prevxid env.recentGlobalXmin <;> simp
      have hnc : ¬ ((CopyTupleFromUndoRecord r tup).slot ≠ XactSlot.frozen ∧
          TransactionIdPrecedes r.uur_prevxid env.recentGlobalXmin = false) := by
        intro hc
        rw [hhor2] at hc
        simp at hc
      rw [if_neg hnc]
      dsimp only
      rw [if_pos (Or.inr hhor2)]
      left
      simp

/-- Claim C4, witness: both slot-switch shapes at concrete inputs.  In
the invalid-slot environment the walkers fetch pointer 20 and then slot
2 own undo pointer 15 through the inner loop; in the ordinary
environment (no ZHEAP_INVALID_XACT_SLOT) the recursive step fetches 15
next; in both cases 15 is the slot pointer, not the record blkprev 10. -/
theorem slot_switch_next_fetch_witness :
    envSwitch2.fetch 20 tupSwitchStart.self.1 tupSwitchStart.self.2 0 =
      some recSwitch2 ∧
    (CopyTupleFromUndoRecord recSwitch2 tupSwitchStart).infomask.invalidXactSlot =
      false ∧
    (GetTupleFromUndo envSwitch2 4 20 tupSwitchStart snapBase 0).2 = [20, 15] ∧
    ((GetTupleFromUndo envSwitch2 4 20 tupSwitchStart snapBase 0).2 = [20] ∨
     ∃ rest, (GetTupleFromUndo envSwitch2 4 20 tupSwitchStart snapBase 0).2 =
       20 :: ZHeapTupleHeaderGetRawUndoPtr envSwitch2
               (CopyTupleFromUndoRecord recSwitch2 tupSwitchStart) :: rest) ∧
    ((GetTupleFromUndo envSwitch 4 20 tupSwitchStart snapBase 0).2 = [20] ∨
     ∃ rest, (GetTupleFromUndo envSwitch 4 20 tupSwitchStart snapBase 0).2 =
       20 :: ZHeapTupleHeaderGetRawUndoPtr envSwitch
               (CopyTupleFromUndoRecord
                 { uur_type := UndoRecType.inplaceUpdate, uur_prevxid := 150,
                   uur_cid := 1, uur_blkprev := 10, uur_payload_ctid := (0, 0),
                   uur_tuple := tupSwitchImage } tupSwitchStart) :: rest) :=
  ⟨by decide, by decide, by decide,
   (slot_switch_next_fetch envSwitch2 3 20 tupSwitchStart snapBase 0 5 true false
      recSwitch2 (by decide) (by decide) (by decide) (by decide)).1,
   (slot_switch_next_fetch envSwitch 3 20 tupSwitchStart snapBase 0 5 true false
      { uur_type := UndoRecType.inplaceUpdate, uur_prevxid := 150,
        uur_cid := 1, uur_blkprev := 10, uur_payload_ctid := (0, 0),
        uur_tuple := tupSwitchImage }
      (by decide) (by decide) (by decide) (by decide)).1⟩

theorem fetchSkipInvalid_bound (env : Env) (hwf : EnvWF env) :
    ∀ f ptr blk off px, ptr < f →
      (fetchSkipInvalid env f ptr blk off px).1 ≠ Res.fuelOut ∧
      List.Pairwise (fun a b => b < a) (fetchSkipInvalid env f ptr blk off px).2 ∧
      (∀ x ∈ (fetchSkipInvalid env f ptr blk off px).2, x ≤ ptr) ∧
      (∀ site urec,
        (fetchSkipInvalid env f ptr blk off px).1 = Res.ok (site, urec) →
        env.fetch site blk off px = some urec ∧ site ≤ ptr ∧
        ∀ x ∈ (fetchSkipInvalid env f ptr blk off px).2, site ≤ x) := by
  intro f
  induction f with
  | zero => intro ptr blk off px h; exact absurd h (Nat.not_lt_zero ptr)
  | succ f ih =>
    intro ptr blk off px h
    cases hfe : env.fetch ptr blk off px with
    | none =>
      have heq : fetchSkipInvalid env (f+1) ptr blk off px = (Res.crash, [ptr]) := by
        unfold fetchSkipInvalid
        simp [hfe]
      rw [heq]
      refine ⟨by simp, by simp, by simp, fun site urec hok => absurd hok (by simp)⟩
    | some urec =>
      by_cases ht : urec.uur_type = UndoRecType.invalidXactSlot
      · have hb := (hwf ptr blk off px urec hfe).1
        have heq : fetchSkipInvalid env (f+1) ptr blk off px =
            ((fetchSkipInvalid env f urec.uur_blkprev blk off px).1,
             ptr :: (fetchSkipInvalid env f urec.uur_blkprev blk off px).2) := by
          conv_lhs => unfold fetchSkipInvalid
          simp [hfe, ht]
        obtain ⟨h1, h2, h3, h4⟩ := ih urec.uur_blkprev blk off px (by omega)
        rw [heq]
        refine ⟨h1, ?_, ?_, ?_⟩
        · exact List.pairwise_cons.mpr
            ⟨fun x hx => lt_of_le_of_lt (h3 x hx) hb, h2⟩
        · intro x hx
          rcases List.mem_cons.mp hx with hx | hx
          · omega
          · have := h3 x hx; omega
        · intro site u hok
          obtain ⟨hf2, hle2, hmin2⟩ := h4 site u hok
          refine ⟨hf2, by omega, fun x hx => ?_⟩
          rcases List.mem_cons.mp hx with hx | hx
          · omega
          · exact hmin2 x hx
      · have heq : fetchSkipInvalid env (f+1) ptr blk off px =
            (Res.ok (ptr, urec), [ptr]) := by
          unfold fetchSkipInvalid
          simp [hfe, ht]
        rw [heq]
        refine ⟨by simp, by simp, by simp, fun site u hok => ?_⟩
        have hinj : (ptr, urec) = (site, u) := Res.ok.inj hok
        have hsite : site = ptr := by
          have := congrArg Prod.fst hinj; simpa using this.symm
        have hu : u = urec := by
          have := congrArg Prod.snd hinj; simpa using this.symm
        subst hsite; subst hu
        exact ⟨hfe, le_refl _, by simp⟩

theorem innerIdentityLoop_bound (env : Env) (hwf : EnvWF env) :
    ∀ f ptr blk off cap, ptr < f →
      (innerIdentityLoop env f ptr blk off cap).1 ≠ none ∧
      List.Pairwise (fun a b => b < a) (innerIdentityLoop env f ptr blk off cap).2 ∧
      (∀ x ∈ (innerIdentityLoop env f ptr blk off cap).2, x ≤ ptr) ∧
      (∀ xid c p2,
        (innerIdentityLoop env f ptr blk off cap).1 = some (xid, c, p2) →
        p2 ≤ ptr ∧ (xid = InvalidTransactionId ∨
          ∀ x ∈ (innerIdentityLoop env f ptr blk off cap).2, p2 < x)) := by
  intro f
  induction f with
  | zero => intro ptr blk off cap h; exact absurd h (Nat.not_lt_zero ptr)
  | succ f ih =>
    intro ptr blk off cap h
    cases hfe : env.fetch ptr blk off InvalidTransactionId with
    | none =>
      have heq : innerIdentityLoop env (f+1) ptr blk off cap =
          (some (InvalidTransactionId, InvalidCommandId, ptr), [ptr]) := by
        unfold innerIdentityLoop
        simp [hfe]
      rw [heq]
      refine ⟨by simp, by simp, by simp, fun xid c p2 hok => ?_⟩
      have h3 : InvalidTransactionId = xid ∧ InvalidCommandId = c ∧ ptr = p2 := by
        simpa using Option.some.inj hok
      obtain ⟨hx, -, hp⟩ := h3
      exact ⟨by omega, Or.inl hx.symm⟩
    | some r =>
      by_cases hpr : TransactionIdPrecedes r.uur_prevxid env.recentGlobalXmin = true
      · have heq : innerIdentityLoop env (f+1) ptr blk off cap =
            (some (InvalidTransactionId, InvalidCommandId, ptr), [ptr]) := by
          unfold innerIdentityLoop
          simp [hfe, hpr]
        rw [heq]
        refine ⟨by simp, by simp, by simp, fun xid c p2 hok => ?_⟩
        have h3 : InvalidTransactionId = xid ∧ InvalidCommandId = c ∧ ptr = p2 := by
          simpa using Option.some.inj hok
        obtain ⟨hx, -, hp⟩ := h3
        exact ⟨by omega, Or.inl hx.symm⟩
      · have hb := (hwf ptr blk off InvalidTransactionId r hfe).1
        by_cases hex : r.uur_type = UndoRecType.invalidXactSlot ∧ cap = r.uur_prevxid
        · have heq : innerIdentityLoop env (f+1) ptr blk off cap =
              (some (r.uur_prevxid, r.uur_cid, r.uur_blkprev), [ptr]) := by
            unfold innerIdentityLoop
            simp [hfe, hpr, hex]
          rw [heq]
          refine ⟨by simp, by simp, by simp, fun xid c p2 hok => ?_⟩
          have h3 : r.uur_prevxid = xid ∧ r.uur_cid = c ∧ r.uur_blkprev = p2 := by
            simpa using Option.some.inj hok
          obtain ⟨-, -, hp⟩ := h3
          refine ⟨by omega, Or.inr fun x hx => ?_⟩
          have : x = ptr := by simpa using hx
          omega
        · have heq : innerIdentityLoop env (f+1) ptr blk off cap =
              ((innerIdentityLoop env f r.uur_blkprev blk off cap).1,
               ptr :: (innerIdentityLoop env f r.uur_blkprev blk off cap).2) := by
            conv_lhs => unfold innerIdentityLoop
            simp [hfe, hpr, hex]
          obtain ⟨h1, h2, h3, h4⟩ := ih r.uur_blkprev blk off cap (by omega)
          rw [heq]
          refine ⟨h1, ?_, ?_, ?_⟩
          · exact List.pairwise_cons.mpr
              ⟨fun x hx => lt_of_le_of_lt (h3 x hx) hb, h2⟩
          · intro x hx
            rcases List.mem_cons.mp hx with hx | hx
            · omega
            · have := h3 x hx; omega
          · intro xid c p2 hok
            obtain ⟨hle2, hdisj⟩ := h4 xid c p2 hok
            refine ⟨by omega, ?_⟩
            rcases hdisj with hx | hmin
            · exact Or.inl hx
            · refine Or.inr fun x hx => ?_
              rcases List.mem_cons.mp hx with hx | hx
              · omega
              · exact hmin x hx

theorem GetTupleFromUndo_bound (env : Env) (hwf : EnvWF env)
    (hh : 0 < env.recentGlobalXmin) :
    ∀ f ptr tup snap px, ptr < f →
      WalkOK ptr (GetTupleFromUndo env f ptr tup snap px) := by
  intro f
  induction f with
  | zero => intro ptr tup snap px h; exact absurd h (Nat.not_lt_zero ptr)
  | succ f ih =>
    intro ptr tup snap px h
    obtain ⟨hs1, hs2, hs3, hs4⟩ :=
      fetchSkipInvalid_bound env hwf (f+1) ptr tup.self.1 tup.self.2 px h
    rcases hS : fetchSkipInvalid env (f+1) ptr tup.self.1 tup.self.2 px with ⟨s1, s2⟩
    rw [hS] at hs1 hs2 hs3 hs4
    simp only [WalkOK]
    unfold GetTupleFromUndo
    dsimp only
    rw [hS]
    cases s1 with
    | crash => exact ⟨by simp, hs2, hs3⟩
    | fuelOut => exact absurd rfl hs1
    | ok pr =>
      obtain ⟨site, urec⟩ := pr
      obtain ⟨hfe, hsle, hsmin⟩ := hs4 site urec rfl
      simp only at hsmin hs2 hs3
      have hb := (hwf site tup.self.1 tup.self.2 px urec hfe).1
      have hsp := (hwf site tup.self.1 tup.self.2 px urec hfe).2
      dsimp only
      set P1 : Nat := (if ZHeapTupleHeaderGetXactSlot (CopyTupleFromUndoRecord urec tup) ≠
            XactSlot.frozen ∧
            ZHeapTupleHeaderGetXactSlot (CopyTupleFromUndoRecord urec tup) ≠
            ZHeapTupleHeaderGetXactSlot tup then
          ZHeapTupleHeaderGetRawUndoPtr env (CopyTupleFromUndoRecord urec tup)
          else urec.uur_blkprev) with hP1
      have hp1 : P1 < site := by
        rw [hP1]
        split
        · exact hsp
        · exact hb
      by_cases hcond : (ZHeapTupleHeaderGetXactSlot (CopyTupleFromUndoRecord urec tup) ≠
          XactSlot.frozen ∧
          TransactionIdPrecedes urec.uur_prevxid env.recentGlobalXmin = false)
      · rw [if_pos hcond]
        by_cases hflag : (CopyTupleFromUndoRecord urec tup).infomask.invalidXactSlot = true
        · rw [if_pos hflag]
          obtain ⟨hi1, hi2, hi3, hi4⟩ :=
            innerIdentityLoop_bound env hwf (f+1) P1 tup.self.1 tup.self.2
              urec.uur_prevxid (by omega)
          rcases hI : innerIdentityLoop env (f+1) P1 tup.self.1 tup.self.2
              urec.uur_prevxid with ⟨o, tr1⟩
          rw [hI] at hi1 hi2 hi3 hi4
          simp only at hi1 hi2 hi3 hi4
          dsimp only
          cases o with
          | none => exact absurd rfl hi1
          | some trip =>
            obtain ⟨xid, c, p2⟩ := trip
            obtain ⟨hp2le, hdisj⟩ := hi4 xid c p2 rfl
            dsimp only
            by_cases hsc : (ZHeapTupleHeaderGetXactSlot (CopyTupleFromUndoRecord urec tup) =
                XactSlot.frozen ∨
                TransactionIdPrecedes xid env.recentGlobalXmin = true)
            · rw [if_pos hsc]
              refine ⟨by simp, ?_, ?_⟩
              · simp only [List.append_nil]
                refine List.pairwise_append.mpr ⟨hs2, hi2, fun a ha b hb2 => ?_⟩
                have h1 := hi3 b hb2
                have h2 := hsmin a ha
                omega
              · intro x hx
                simp only [List.append_nil, List.mem_append] at hx
                rcases hx with hx | hx
                · exact hs3 x hx
                · have := hi3 x hx; omega
            · rw [if_neg hsc]
              have hxid : xid ≠ InvalidTransactionId := by
                intro hx
                apply hsc
                right
                rw [hx]
                simpa [TransactionIdPrecedes, InvalidTransactionId] using hh
              have hmin : ∀ x ∈ tr1, p2 < x := hdisj.resolve_left hxid
              cases hdec : mvccUndoDecision env snap (CopyTupleFromUndoRecord urec tup)
                  (if (CopyTupleFromUndoRecord urec tup).infomask.inplaceUpdated then
                    UndoOper.inplaceUpdated
                  else if (CopyTupleFromUndoRecord urec tup).infomask.xidLockOnly then
                    UndoOper.lockOnly
                  else UndoOper.other) xid c with
              | ret v =>
                refine ⟨by simp, ?_, ?_⟩
                · simp only [List.append_nil]
                  refine List.pairwise_append.mpr ⟨hs2, hi2, fun a ha b hb2 => ?_⟩
                  have h1 := hi3 b hb2
                  have h2 := hsmin a ha
                  omega
                · intro x hx
                  simp only [List.append_nil, List.mem_append] at hx
                  rcases hx with hx | hx
                  · exact hs3 x hx
                  · have := hi3 x hx; omega
              | recurse =>
                obtain ⟨hr1, hr2, hr3⟩ :=
                  ih p2 (CopyTupleFromUndoRecord urec tup) snap xid (by omega)
                simp only [List.append_assoc]
                refine ⟨hr1, ?_, ?_⟩
                · refine List.pairwise_append.mpr ⟨hs2, ?_, ?_⟩
                  · refine List.pairwise_append.mpr ⟨hi2, hr2, fun a ha b hb2 => ?_⟩
                    have h1 := hr3 b hb2
                    have h2 := hmin a ha
                    omega
                  · intro a ha b hb2
                    have h2 := hsmin a ha
                    simp only [List.mem_append] at hb2
                    rcases hb2 with hb2 | hb2
                    · have := hi3 b hb2; omega
                    · have := hr3 b hb2; omega
                · intro x hx
                  simp only [List.mem_append] at hx
                  rcases hx with hx | hx | hx
                  · exact hs3 x hx
                  · have := hi3 x hx; omega
                  · have := hr3 x hx; omega
        · rw [if_neg hflag]
          dsimp only
          by_cases hsc : (ZHeapTupleHeaderGetXactSlot (CopyTupleFromUndoRecord urec tup) =
              XactSlot.frozen ∨
              TransactionIdPrecedes urec.uur_prevxid env.recentGlobalXmin = true)
          · rw [if_pos hsc]
            exact ⟨by simp, by simpa using hs2, by simpa using hs3⟩
          · rw [if_neg hsc]
            cases hdec : mvccUndoDecision env snap (CopyTupleFromUndoRecord urec tup)
                (if (CopyTupleFromUndoRecord urec tup).infomask.inplaceUpdated then
                  UndoOper.inplaceUpdated
                else if (CopyTupleFromUndoRecord urec tup).infomask.xidLockOnly then
                  UndoOper.lockOnly
                else UndoOper.other) urec.uur_prevxid
                (env.getCid (CopyTupleFromUndoRecord urec tup)) with
            | ret v =>
              exact ⟨by simp, by simpa using hs2, by simpa using hs3⟩
            | recurse =>
              obtain ⟨hr1, hr2, hr3⟩ :=
                ih P1 (CopyTupleFromUndoRecord urec tup) snap urec.uur_prevxid (by omega)
              simp only [List.append_nil]
              refine ⟨hr1, ?_, ?_⟩
              · refine List.pairwise_append.mpr ⟨hs2, hr2, fun a ha b hb2 => ?_⟩
                have h1 := hr3 b hb2
                have h2 := hsmin a ha
                omega
              · intro x hx
                simp only [List.mem_append] at hx
                rcases hx with hx | hx
                · exact hs3 x hx
                · have := hr3 x hx; omega
      · rw [if_neg hcond]
        dsimp only
        have hsc : (ZHeapTupleHeaderGetXactSlot (CopyTupleFromUndoRecord urec tup) =
            XactSlot.frozen ∨
            TransactionIdPrecedes urec.uur_prevxid env.recentGlobalXmin = true) := by
          rcases not_and_or.mp hcond with hx | hx
          · exact Or.inl (not_not.mp hx)
          · right
            revert hx
            cases TransactionIdPrecedes urec.uur_prevxid env.recentGlobalXmin <;> simp
        rw [if_pos hsc]
        exact ⟨by simp, by simpa using hs2, by simpa using hs3⟩

theorem UndoTupleSatisfiesUpdate_bound (env : Env) (hwf : EnvWF env)
    (hh : 0 < env.recentGlobalXmin) :
    ∀ f ptr tup curcid wantCtid px iplIn, ptr < f →
      WalkOK ptr (UndoTupleSatisfiesUpdate env f ptr tup curcid wantCtid px iplIn) := by
  intro f
  induction f with
  | zero => intro ptr tup curcid wantCtid px iplIn h; exact absurd h (Nat.not_lt_zero ptr)
  | succ f ih =>
    intro ptr tup curcid wantCtid px iplIn h
    obtain ⟨hs1, hs2, hs3, hs4⟩ :=
      fetchSkipInvalid_bound env hwf (f+1) ptr tup.self.1 tup.self.2 px h
    rcases hS : fetchSkipInvalid env (f+1) ptr tup.self.1 tup.self.2 px with ⟨s1, s2⟩
    rw [hS] at hs1 hs2 hs3 hs4
    simp only [WalkOK]
    unfold UndoTupleSatisfiesUpdate
    dsimp only
    rw [hS]
    cases s1 with
    | crash => exact ⟨by simp, hs2, hs3⟩
    | fuelOut => exact absurd rfl hs1
    | ok pr =>
      obtain ⟨site, urec⟩ := pr
      obtain ⟨hfe, hsle, hsmin⟩ := hs4 site urec rfl
      simp only at hsmin hs2 hs3
      have hb := (hwf site tup.self.1 tup.self.2 px urec hfe).1
      have hsp := (hwf site tup.self.1 tup.self.2 px urec hfe).2
      dsimp only
      set P1 : Nat := (if ZHeapTupleHeaderGetXactSlot (CopyTupleFromUndoRecord urec tup) ≠
            XactSlot.frozen ∧
            ZHeapTupleHeaderGetXactSlot (CopyTupleFromUndoRecord urec tup) ≠
            ZHeapTupleHeaderGetXactSlot tup then
          ZHeapTupleHeaderGetRawUndoPtr env (CopyTupleFromUndoRecord urec tup)
          else urec.uur_blkprev) with hP1
      have hp1 : P1 < site := by
        rw [hP1]
        split
        · exact hsp
        · exact hb
      by_cases hcond : (ZHeapTupleHeaderGetXactSlot (CopyTupleFromUndoRecord urec tup) ≠
          XactSlot.frozen ∧
          TransactionIdPrecedes urec.uur_prevxid env.recentGlobalXmin = false)
      · rw [if_pos hcond]
        by_cases hflag : (CopyTupleFromUndoRecord urec tup).infomask.invalidXactSlot = true
        · rw [if_pos hflag]
          obtain ⟨hi1, hi2, hi3, hi4⟩ :=
            innerIdentityLoop_bound env hwf (f+1) P1 tup.self.1 tup.self.2
              urec.uur_prevxid (by omega)
          rcases hI : innerIdentityLoop env (f+1) P1 tup.self.1 tup.self.2
              urec.uur_prevxid with ⟨o, tr1⟩
          rw [hI] at hi1 hi2 hi3 hi4
          simp only at hi1 hi2 hi3 hi4
          dsimp only
          cases o with
          | none => exact absurd rfl hi1
          | some trip =>
            obtain ⟨xid, c, p2⟩ := trip
            obtain ⟨hp2le, hdisj⟩ := hi4 xid c p2 rfl
            dsimp only
            by_cases hsc : (ZHeapTupleHeaderGetXactSlot (CopyTupleFromUndoRecord urec tup) =
                XactSlot.frozen ∨
                TransactionIdPrecedes xid env.recentGlobalXmin = true)
            · rw [if_pos hsc]
              refine ⟨by simp, ?_, ?_⟩
              · simp only [List.append_nil]
                refine List.pairwise_append.mpr ⟨hs2, hi2, fun a ha b hb2 => ?_⟩
                have h1 := hi3 b hb2
                have h2 := hsmin a ha
                omega
              · intro x hx
                simp only [List.append_nil, List.mem_append] at hx
                rcases hx with hx | hx
                · exact hs3 x hx
                · have := hi3 x hx; omega
            · rw [if_neg hsc]
              have hxid : xid ≠ InvalidTransactionId := by
                intro hx
                apply hsc
                right
                rw [hx]
                simpa [TransactionIdPrecedes, InvalidTransactionId] using hh
              have hmin : ∀ x ∈ tr1, p2 < x := hdisj.resolve_left hxid
              cases hdec : updateUndoDecision env curcid
                  (if (CopyTupleFromUndoRecord urec tup).infomask.inplaceUpdated then
                    UndoOper.inplaceUpdated
                  else if (CopyTupleFromUndoRecord urec tup).infomask.xidLockOnly then
                    UndoOper.lockOnly
                  else UndoOper.other) xid c with
              | ret v =>
                refine ⟨by simp, ?_, ?_⟩
                · simp only [List.append_nil]
                  refine List.pairwise_append.mpr ⟨hs2, hi2, fun a ha b hb2 => ?_⟩
                  have h1 := hi3 b hb2
                  have h2 := hsmin a ha
                  omega
                · intro x hx
                  simp only [List.append_nil, List.mem_append] at hx
                  rcases hx with hx | hx
                  · exact hs3 x hx
                  · have := hi3 x hx; omega
              | recurse =>
                obtain ⟨hr1, hr2, hr3⟩ :=
                  ih p2 (CopyTupleFromUndoRecord urec tup) curcid wantCtid xid
                    (iplIn || (CopyTupleFromUndoRecord urec tup).infomask.inplaceUpdated ||
                      (CopyTupleFromUndoRecord urec tup).infomask.xidLockOnly) (by omega)
                simp only [List.append_assoc]
                refine ⟨hr1, ?_, ?_⟩
                · refine List.pairwise_append.mpr ⟨hs2, ?_, ?_⟩
                  · refine List.pairwise_append.mpr ⟨hi2, hr2, fun a ha b hb2 => ?_⟩
                    have h1 := hr3 b hb2
                    have h2 := hmin a ha
                    omega
                  · intro a ha b hb2
                    have h2 := hsmin a ha
                    simp only [List.mem_append] at hb2
                    rcases hb2 with hb2 | hb2
                    · have := hi3 b hb2; omega
                    · have := hr3 b hb2; omega
                · intro x hx
                  simp only [List.mem_append] at hx
                  rcases hx with hx | hx | hx
                  · exact hs3 x hx
                  · have := hi3 x hx; omega
                  · have := hr3 x hx; omega
        · rw [if_neg hflag]
          dsimp only
          by_cases hsc : (ZHeapTupleHeaderGetXactSlot (CopyTupleFromUndoRecord urec tup) =
              XactSlot.frozen ∨
              TransactionIdPrecedes urec.uur_prevxid env.recentGlobalXmin = true)
          · rw [if_pos hsc]
            exact ⟨by simp, by simpa using hs2, by simpa using hs3⟩
          · rw [if_neg hsc]
            cases hdec : updateUndoDecision env curcid
                (if (CopyTupleFromUndoRecord urec tup).infomask.inplaceUpdated then
                  UndoOper.inplaceUpdated
                else if (CopyTupleFromUndoRecord urec tup).infomask.xidLockOnly then
                  UndoOper.lockOnly
                else UndoOper.other) urec.uur_prevxid
                (env.getCid (CopyTupleFromUndoRecord urec tup)) with
            | ret v =>
              exact ⟨by simp, by simpa using hs2, by simpa using hs3⟩
            | recurse =>
              obtain ⟨hr1, hr2, hr3⟩ :=
                ih P1 (CopyTupleFromUndoRecord urec tup) curcid wantCtid urec.uur_prevxid
                  (iplIn || (CopyTupleFromUndoRecord urec tup).infomask.inplaceUpdated ||
                    (CopyTupleFromUndoRecord urec tup).infomask.xidLockOnly) (by omega)
              simp only [List.append_nil]
              refine ⟨hr1, ?_, ?_⟩
              · refine List.pairwise_append.mpr ⟨hs2, hr2, fun a ha b hb2 => ?_⟩
                have h1 := hr3 b hb2
                have h2 := hsmin a ha
                omega
              · intro x hx
                simp only [List.mem_append] at hx
                rcases hx with hx | hx
                · exact hs3 x hx
                · have := hr3 x hx; omega
      · rw [if_neg hcond]
        dsimp only
        have hsc : (ZHeapTupleHeaderGetXactSlot (CopyTupleFromUndoRecord urec tup) =
            XactSlot.frozen ∨
            TransactionIdPrecedes urec.uur_prevxid env.recentGlobalXmin = true) := by
          rcases not_and_or.mp hcond with hx | hx
          · exact Or.inl (not_not.mp hx)
          · right
            revert hx
            cases TransactionIdPrecedes urec.uur_prevxid env.recentGlobalXmin <;> simp
        rw [if_pos hsc]
        exact ⟨by simp, by simpa using hs2, by simpa using hs3⟩

/-- Claim C8: on well-founded undo environments (EnvWF: every link the
walk can follow, blkprev or slot pointer, strictly descends) and with a
live horizon, every undo walk of GetTupleFromUndo and
UndoTupleSatisfiesUpdate terminates: fuel beyond the starting pointer is
never exhausted, and the list of fetched pointers is strictly
descending.  Strict descent means no undo record is ever fetched twice,
so the walk performs exactly one fetch per chain record it visits plus
one per slot-invalidation record it skips or consumes: at most
chain_length + slot_invalidations fetches, as claimed. -/
theorem undo_walk_terminates_no_refetch (env : Env) (hwf : EnvWF env)
    (hh : 0 < env.recentGlobalXmin) (f ptr : Nat) (tup : ZTuple)
    (snap : Snapshot) (px curcid : Nat) (wantCtid iplIn : Bool)
    (hf : ptr < f) :
    ((GetTupleFromUndo env f ptr tup snap px).1 ≠ Res.fuelOut ∧
     List.Pairwise (fun a b => b < a) (GetTupleFromUndo env f ptr tup snap px).2) ∧
    ((UndoTupleSatisfiesUpdate env f ptr tup curcid wantCtid px iplIn).1 ≠ Res.fuelOut ∧
     List.Pairwise (fun a b => b < a)
       (UndoTupleSatisfiesUpdate env f ptr tup curcid wantCtid px iplIn).2) := by
  obtain ⟨h1, h2, -⟩ := GetTupleFromUndo_bound env hwf hh f ptr tup snap px hf
  obtain ⟨h3, h4, -⟩ :=
    UndoTupleSatisfiesUpdate_bound env hwf hh f ptr tup curcid wantCtid px iplIn hf
  exact ⟨⟨h1, h2⟩, ⟨h3, h4⟩⟩

/-- Claim C8, witness on the concrete one-record environment. -/
theorem undo_walk_terminates_witness :
    EnvWF envTerm ∧ 0 < envTerm.recentGlobalXmin ∧ (5 : Nat) < 6 ∧
    (GetTupleFromUndo envTerm 6 5 tupInsertIdx1 snapBase 0).1 ≠ Res.fuelOut ∧
    List.Pairwise (fun a b => b < a)
      (GetTupleFromUndo envTerm 6 5 tupInsertIdx1 snapBase 0).2 := by
  have hwf : EnvWF envTerm := by
    intro p blk off px r h
    by_cases hp : p = 5
    · subst hp
      simp only [envTerm, envBase] at h
      rw [if_pos trivial] at h
      have hr := Option.some.inj h
      rw [← hr]
      exact ⟨by decide, by decide⟩
    · simp [envTerm, envBase, hp] at h
  have hmain := undo_walk_terminates_no_refetch envTerm hwf (by decide) 6 5
    tupInsertIdx1 snapBase 0 5 true false (by decide)
  exact ⟨hwf, by decide, by decide, hmain.1.1, hmain.1.2⟩

/-- Claim C10, amended, witness at the concrete aborted delete by xid
300 (beyond the horizon). -/
theorem dirty_aborted_returns_null_witness :
    resolveIdentTop envAbortedLive 3 tupAbortedDeleted = (some (300, 0, 7), []) ∧
    envAbortedLive.isCurrent 300 = false ∧
    envAbortedLive.isInProgress 300 = false ∧
    envAbortedLive.didCommit 300 = false ∧
    ZHeapTupleSatisfiesDirty envAbortedLive 3 tupAbortedDeleted snapBase false =
      (Res.ok { result := none, snapOut := entrySnapshot snapBase,
                ctidOut := none }, []) :=
  ⟨by decide, by decide, by decide, by decide,
   dirty_aborted_returns_null_amended envAbortedLive 3 tupAbortedDeleted snapBase
     false 300 0 7 [] (by decide) (by decide) (by decide) (by decide)
     (by decide)⟩

end ZTq
